import Mathlib

/-!
# rustdesk-api: the first-install report handler

A shallow embedding of `http/controller/admin/report.go`
(`ClientReport.FirstInstallReport`) and the properties of it that the
specification states.

The handler is a straight-line orchestration of calls into collaborators that
live outside the file: the JSON binder, the struct validator, the user
service, the address-book service, the logger, the translator and the Go
`time` package.  The embedding keeps the handler generic in the service layer
(`Services σ`, explicit state passing over a store type `σ`) and records every
service call in a trace, so that "never calls Create" is a statement about the
trace.  A concrete store (`Store`, `storeServices`) models the service layer
the way the specification describes it.
-/

namespace RustdeskApi

/-! ## Data model -/

/-- Kind of a Go `error` coming back from the persistence layer. The handler
itself only ever tests `err != nil`. -/
inductive ErrKind
  | conflict
  | other
deriving DecidableEq, Repr

/-- A non-nil Go `error`: its kind and the text of `err.Error()`. -/
structure GoError where
  kind : ErrKind
  msg : String
deriving DecidableEq, Repr

/-- The request body `FirstInstallReportForm` (report.go, lines 18-23).
`TargetUserId` is a Go `uint`; no arithmetic is done on it. -/
structure FirstInstallReportForm where
  ClientId : String
  Hostname : String
  Platform : String
  TargetUserId : Nat
deriving DecidableEq, Repr

/-- The part of `model.User` the handler reads. -/
structure User where
  Id : Nat
deriving DecidableEq, Repr

/-- The part of `model.AddressBook` the handler reads or writes
(report.go, lines 59 and 75-82). -/
structure AddressBook where
  RowId : Nat
  Id : String
  Hostname : String
  Platform : String
  UserId : Nat
  CollectionId : Nat
  Status : Nat
deriving DecidableEq, Repr

/-- The part of the collection record the handler reads: its `Id`; `UserId` and
`Name` are the owner and the date label the collection was provisioned for. -/
structure AddressBookCollection where
  Id : Nat
  UserId : Nat
  Name : String
deriving DecidableEq, Repr

/-- What `response.Success` and `response.Fail` send to the client. -/
inductive Response
  | Success (data : String)
  | Fail (code : Nat) (msg : String)
deriving DecidableEq, Repr

/-- How a run of the handler ends: a response was written, or a Go panic
unwound the handler. -/
inductive Outcome
  | responded (r : Response)
  | panicked (msg : String)
deriving DecidableEq, Repr

/-- The calls a run makes into the service layer and the logger, in order. -/
inductive Call
  | InfoById (id : Nat)
  | InfoByUserIdAndId (userId : Nat) (id : String)
  | GetOrCreateDateCollection (userId : Nat) (dateStr : String)
  | Create (ab : AddressBook)
  | LoggerError (msg : String)
deriving DecidableEq, Repr

/-- A `*time.Location`: its name and the offset east of UTC, in seconds, that
is in force at a Unix instant. -/
structure Location where
  name : String
  lookup : Int → Int

/-- The ambient collaborators of one run: the translator, the time-zone
database behind `time.LoadLocation` (`none` is the `nil, err` result) and the
clock reading of `time.Now()` in Unix seconds. -/
structure Env where
  TranslateMsg : String → List String → String
  ValidatorMsg : String → String → String
  LoadLocation : String → Option Location
  Now : Int

/-- The service layer `service.AllService` over a store of type `σ`.
The two `Info...` lookups are reads; the other two may change the store. -/
structure Services (σ : Type) where
  InfoById : σ → Nat → User
  InfoByUserIdAndId : σ → Nat → String → AddressBook
  GetOrCreateDateCollection : σ → Nat → String → σ × Except GoError AddressBookCollection
  Create : σ → AddressBook → σ × Option GoError

/-- What a run of the handler leaves behind. -/
structure Result (σ : Type) where
  outcome : Outcome
  state : σ
  calls : List Call

/-! ## The Go `time` package: calendar date and `Format("2006-01-02")` -/

/-- A `time.Time` after `In(loc)`: a Unix instant with a location. -/
structure Time where
  unix : Int
  loc : Location

/-- `Time.In` on a non-nil location (a nil location panics, see the handler). -/
def In (unix : Int) (loc : Location) : Time :=
  { unix := unix, loc := loc }

/-- Proleptic Gregorian date (year, month, day) of a day count since
1970-01-01, computed per 400-year era from 1 March of year 0; `civil_succ` and
`civil_known_dates` tie it to the rules of the calendar. -/
def civil (days : Int) : Int × Int × Int :=
  let z := days + 719468
  let era := z / 146097
  let doe := z % 146097
  let yoe := (doe - doe / 1460 + doe / 36524 - doe / 146096) / 365
  let doy := doe - (365 * yoe + yoe / 4 - yoe / 100)
  let mp := (5 * doy + 2) / 153
  let d := doy - (153 * mp + 2) / 5 + 1
  let m := if mp < 10 then mp + 3 else mp - 9
  let y := yoe + era * 400
  (if m ≤ 2 then y + 1 else y, m, d)

/-- Leap years of the Gregorian calendar. -/
def isLeap (year : Int) : Prop :=
  year % 4 = 0 ∧ (year % 100 ≠ 0 ∨ year % 400 = 0)

instance isLeap.decidable (year : Int) : Decidable (isLeap year) := by
  unfold isLeap; infer_instance

/-- The number of days of a month. -/
def daysIn (year month : Int) : Int :=
  if month = 2 then (if isLeap year then 29 else 28)
  else if month = 4 ∨ month = 6 ∨ month = 9 ∨ month = 11 then 30 else 31

/-- The day after a date, by the rules of the calendar. -/
def nextDate (ymd : Int × Int × Int) : Int × Int × Int :=
  if ymd.2.2 < daysIn ymd.1 ymd.2.1 then (ymd.1, ymd.2.1, ymd.2.2 + 1)
  else if ymd.2.1 < 12 then (ymd.1, ymd.2.1 + 1, 1)
  else (ymd.1 + 1, 1, 1)

/-- The year within a 400-year era (March-based, 0..399) of a day of the era. -/
def yearOfEra (doe : Int) : Int :=
  (doe - doe / 1460 + doe / 36524 - doe / 146096) / 365

/-- The date of day `doy` of the March-based year `yoe` of an era. -/
def dateOf (era yoe doy : Int) : Int × Int × Int :=
  let mp := (5 * doy + 2) / 153
  let d := doy - (153 * mp + 2) / 5 + 1
  let m := if mp < 10 then mp + 3 else mp - 9
  let y := yoe + era * 400
  (if m ≤ 2 then y + 1 else y, m, d)

/-- `Time.Date`: year, month and day of the instant in its location. -/
def Time.Date (t : Time) : Int × Int × Int :=
  civil ((t.unix + t.loc.lookup t.unix) / 86400)

/-- The ASCII digit of `d < 10`. -/
def digitChar (d : Nat) : Char :=
  Char.ofNat (48 + d)

/-- Decimal digits of `u`, least significant first; the fuel is the size of the
digit buffer of Go's `appendInt` (20 bytes hold any 64-bit value). -/
def digitsRev : Nat → Nat → List Char
  | 0, _ => []
  | fuel + 1, u =>
    if 10 ≤ u then digitChar (u % 10) :: digitsRev fuel (u / 10) else [digitChar u]

/-- Go's `appendInt`: a sign for negative values, then the decimal digits
zero-padded on the left to `width`. -/
def appendInt (x : Int) (width : Nat) : List Char :=
  let ds := (digitsRev 20 x.natAbs).reverse
  (if x < 0 then ['-'] else []) ++ List.replicate (width - ds.length) '0' ++ ds

/-- `Time.Format("2006-01-02")`. -/
def Time.Format (t : Time) : String :=
  let ymd := t.Date
  String.mk (appendInt ymd.1 4 ++ ['-'] ++ appendInt ymd.2.1 2 ++ ['-'] ++ appendInt ymd.2.2 2)

/-! ## The handler -/

/-- Modelled from the spec: `global.Validator.ValidStruct` is not under src/.
It is the struct validator run on the `validate` tags of
`FirstInstallReportForm`: `required` on `ClientId` rejects the empty string,
`required,gt=0` on `TargetUserId` rejects 0 (the only non-positive `uint`).
One message per failing field, in field order. -/
def ValidStruct (env : Env) (form : FirstInstallReportForm) : List String :=
  (if form.ClientId = "" then [env.ValidatorMsg "ClientId" "required"] else []) ++
  (if form.TargetUserId = 0 then [env.ValidatorMsg "TargetUserId" "required"] else [])

/-- `ClientReport.FirstInstallReport` (report.go, lines 35-95).
`bind` is the result of `c.ShouldBindJSON(form)`: the decoded form, or the
text of the binding error. -/
def FirstInstallReport {σ : Type} (svc : Services σ) (env : Env)
    (bind : Except String FirstInstallReportForm) (s : σ) : Result σ :=
  match bind with
  | .error err =>
    { outcome := .responded (.Fail 101 (env.TranslateMsg "ParamsError" [] ++ err)),
      state := s, calls := [] }
  | .ok form =>
    match ValidStruct env form with
    | e :: _ => { outcome := .responded (.Fail 101 e), state := s, calls := [] }
    | [] =>
      let targetUser := svc.InfoById s form.TargetUserId
      if targetUser.Id = 0 then
        { outcome := .responded (.Fail 102 (env.TranslateMsg "UserNotFound" [])),
          state := s, calls := [.InfoById form.TargetUserId] }
      else
        let existing := svc.InfoByUserIdAndId s form.TargetUserId form.ClientId
        if existing.RowId > 0 then
          { outcome := .responded (.Success (env.TranslateMsg "DeviceAlreadyExists" [])),
            state := s,
            calls := [.InfoById form.TargetUserId,
                      .InfoByUserIdAndId form.TargetUserId form.ClientId] }
        else
          match env.LoadLocation "Asia/Shanghai" with
          | none =>
            { outcome := .panicked "time: missing Location in call to Time.In",
              state := s,
              calls := [.InfoById form.TargetUserId,
                        .InfoByUserIdAndId form.TargetUserId form.ClientId] }
          | some loc =>
            let dateStr := (In env.Now loc).Format
            match svc.GetOrCreateDateCollection s form.TargetUserId dateStr with
            | (s1, .error err) =>
              { outcome :=
                  .responded (.Fail 103 (env.TranslateMsg "OperationFailed" [] ++ err.msg)),
                state := s1,
                calls := [.InfoById form.TargetUserId,
                          .InfoByUserIdAndId form.TargetUserId form.ClientId,
                          .GetOrCreateDateCollection form.TargetUserId dateStr,
                          .LoggerError ("创建/获取日期地址簿失败: " ++ err.msg)] }
            | (s1, .ok defaultCollection) =>
              let addressBook : AddressBook :=
                { RowId := 0,
                  Id := form.ClientId,
                  Hostname := form.Hostname,
                  Platform := form.Platform,
                  UserId := form.TargetUserId,
                  CollectionId := defaultCollection.Id,
                  Status := 0 }
              match svc.Create s1 addressBook with
              | (s2, some err) =>
                { outcome :=
                    .responded (.Fail 103 (env.TranslateMsg "OperationFailed" [] ++ err.msg)),
                  state := s2,
                  calls := [.InfoById form.TargetUserId,
                            .InfoByUserIdAndId form.TargetUserId form.ClientId,
                            .GetOrCreateDateCollection form.TargetUserId dateStr,
                            .Create addressBook,
                            .LoggerError ("添加设备到地址簿失败: " ++ err.msg)] }
              | (s2, none) =>
                { outcome :=
                    .responded (.Success (env.TranslateMsg "DeviceAddedSuccessfully"
                      [toString form.TargetUserId])),
                  state := s2,
                  calls := [.InfoById form.TargetUserId,
                            .InfoByUserIdAndId form.TargetUserId form.ClientId,
                            .GetOrCreateDateCollection form.TargetUserId dateStr,
                            .Create addressBook] }

/-! ## The trace of a run -/

/-- The entries a run passed to `AddressBookService.Create`. -/
def createdEntries : List Call → List AddressBook
  | [] => []
  | .Create ab :: rest => ab :: createdEntries rest
  | _ :: rest => createdEntries rest

/-- The `(user id, date label)` pairs a run passed to
`AddressBookService.GetOrCreateDateCollection`. -/
def provisionRequests : List Call → List (Nat × String)
  | [] => []
  | .GetOrCreateDateCollection uid d :: rest => (uid, d) :: provisionRequests rest
  | _ :: rest => provisionRequests rest

/-- The four responses the handler can write. -/
def Outcome.isResponse : Outcome → Bool
  | .responded (.Success _) => true
  | .responded (.Fail code _) => code == 101 || code == 102 || code == 103
  | .panicked _ => false

/-! ## The store behind the service layer -/

/-- The persisted state: the user directory, the collection table and the
device-entry table. -/
structure Store where
  users : List User
  collections : List AddressBookCollection
  addressBooks : List AddressBook
deriving DecidableEq, Repr

/-- Failures of the persistence layer that do not come from the tables
themselves (the database is unreachable, a concurrent writer won a race):
when set, the call returns that error and leaves the store alone. -/
structure Faults where
  provision : Option GoError
  create : Option GoError
deriving DecidableEq, Repr

/-- No persistence call fails. -/
def Faults.none : Faults :=
  { provision := Option.none, create := Option.none }

/-- The next primary key of the device-entry table (auto-increment from 1). -/
def Store.nextRowId (s : Store) : Nat :=
  s.addressBooks.foldl (fun m a => max m a.RowId) 0 + 1

/-- The next primary key of the collection table (auto-increment from 1). -/
def Store.nextCollectionId (s : Store) : Nat :=
  s.collections.foldl (fun m c => max m c.Id) 0 + 1

/-- Modelled from the spec: `UserService.InfoById` is not under src/.
`UserDirectory.Resolve(userId)`: the user record, or the zero record
(`Id = 0`) when no user has that id. -/
def Store.InfoById (s : Store) (id : Nat) : User :=
  (s.users.find? (fun u => u.Id = id)).getD { Id := 0 }

/-- Modelled from the spec: `AddressBookService.InfoByUserIdAndId` is not under
src/. `DeviceRegistry.Exists(userId, deviceId)`: the stored entry keyed by
`(userId, deviceId)`, or the zero record (`RowId = 0`) when there is none. -/
def Store.InfoByUserIdAndId (s : Store) (userId : Nat) (id : String) : AddressBook :=
  (s.addressBooks.find? (fun a => a.UserId = userId ∧ a.Id = id)).getD
    { RowId := 0, Id := "", Hostname := "", Platform := "", UserId := 0,
      CollectionId := 0, Status := 0 }

/-- Modelled from the spec: `AddressBookService.GetOrCreateDateCollection` is
not under src/. `CollectionProvisioner.GetOrCreate(userId, dateLabel)`: one
atomic storage operation that returns the existing collection of that
`(userId, dateLabel)` pair or inserts one. -/
def Store.GetOrCreateDateCollection (f : Faults) (s : Store) (userId : Nat) (dateStr : String) :
    Store × Except GoError AddressBookCollection :=
  match f.provision with
  | some err => (s, .error err)
  | Option.none =>
    match s.collections.find? (fun c => c.UserId = userId ∧ c.Name = dateStr) with
    | some c => (s, .ok c)
    | Option.none =>
      let c : AddressBookCollection :=
        { Id := s.nextCollectionId, UserId := userId, Name := dateStr }
      ({ s with collections := s.collections ++ [c] }, .ok c)

/-- The text of the error `Store.Create` returns on a duplicate key. -/
def conflictMsg : String :=
  "duplicate entry for (user_id, id)"

/-- Modelled from the spec: `AddressBookService.Create` is not under src/.
`DeviceRegistry.Create(entry)`: an insert guarded by the uniqueness constraint
on `(userId, deviceId)`; a duplicate key is a `ConflictError`. -/
def Store.Create (f : Faults) (s : Store) (ab : AddressBook) : Store × Option GoError :=
  match f.create with
  | some err => (s, some err)
  | Option.none =>
    if s.addressBooks.any (fun a => a.UserId = ab.UserId ∧ a.Id = ab.Id) then
      (s, some { kind := .conflict, msg := conflictMsg })
    else
      ({ s with addressBooks := s.addressBooks ++ [{ ab with RowId := s.nextRowId }] },
        Option.none)

/-- The service layer over `Store`. -/
def storeServices (f : Faults) : Services Store :=
  { InfoById := Store.InfoById,
    InfoByUserIdAndId := Store.InfoByUserIdAndId,
    GetOrCreateDateCollection := Store.GetOrCreateDateCollection f,
    Create := Store.Create f }

/-- The number of stored device entries keyed by `(userId, id)`. -/
def Store.entryCount (s : Store) (userId : Nat) (id : String) : Nat :=
  (s.addressBooks.filter (fun a => a.UserId = userId ∧ a.Id = id)).length

/-- The device-entry table is well formed: primary keys are positive and the
table is keyed uniquely by `(userId, deviceId)`. -/
def Store.WF (s : Store) : Prop :=
  (∀ a ∈ s.addressBooks, 0 < a.RowId) ∧
  s.addressBooks.Pairwise (fun a b => ¬ (a.UserId = b.UserId ∧ a.Id = b.Id))

/-! ## Sample data -/

/-- A translator that returns the message key followed by its arguments. -/
def sampleTranslate (key : String) (args : List String) : String :=
  args.foldl (fun acc a => acc ++ " " ++ a) key

/-- A time-zone database that knows `Asia/Shanghai` (UTC+8) and `UTC`. -/
def sampleZones (name : String) : Option Location :=
  if name = "Asia/Shanghai" then some { name := name, lookup := fun _ => 28800 }
  else if name = "UTC" then some { name := name, lookup := fun _ => 0 }
  else Option.none

/-- An environment whose clock reads `now` and whose zone database is
`sampleZones`. -/
def sampleEnv (now : Int) : Env :=
  { TranslateMsg := sampleTranslate,
    ValidatorMsg := fun field tag => field ++ ": " ++ tag,
    LoadLocation := sampleZones,
    Now := now }

/-- The same environment on a host without a time-zone database. -/
def noZonesEnv (now : Int) : Env :=
  { sampleEnv now with LoadLocation := fun _ => Option.none }

/-- A store with user 42 and empty tables. -/
def sampleStore : Store :=
  { users := [{ Id := 42 }], collections := [], addressBooks := [] }

/-- The report of the specification's example. -/
def sampleForm : FirstInstallReportForm :=
  { ClientId := "dev-1", Hostname := "h1", Platform := "linux", TargetUserId := 42 }

/-! ## Registrations and sequences of runs -/

/-- The entry the handler builds for a new device (report.go, lines 75-82). -/
def firstInstallEntry (form : FirstInstallReportForm) (collectionId : Nat) : AddressBook :=
  { RowId := 0,
    Id := form.ClientId,
    Hostname := form.Hostname,
    Platform := form.Platform,
    UserId := form.TargetUserId,
    CollectionId := collectionId,
    Status := 0 }

/-- The registration a run completed: the date label it provisioned and the
entry it handed to a successful `Create`. -/
def registered {σ : Type} (r : Result σ) : Option (String × AddressBook) :=
  match r.outcome, r.calls with
  | .responded (.Success _), [_, _, .GetOrCreateDateCollection _ d, .Create ab] => some (d, ab)
  | _, _ => Option.none

/-- One incoming request together with the environment it meets. -/
structure Report where
  env : Env
  faults : Faults
  bind : Except String FirstInstallReportForm

/-- Handle the requests one after the other; returns the final store and the
registrations completed on the way. -/
def runAll : List Report → Store → Store × List (String × AddressBook)
  | [], s => (s, [])
  | r :: rest, s =>
    let res := FirstInstallReport (storeServices r.faults) r.env r.bind s
    let tail := runAll rest res.state
    (tail.1, (registered res).toList ++ tail.2)

/-- A store with the given users and empty tables. -/
def Store.init (users : List User) : Store :=
  { users := users, collections := [], addressBooks := [] }

/-- The collection table is keyed uniquely by `(userId, dateLabel)`. -/
def Store.collectionsUnique (s : Store) : Prop :=
  s.collections.Pairwise (fun a b => ¬ (a.UserId = b.UserId ∧ a.Name = b.Name))

/-! ## Two runs over one store

Between two service calls a run can be overtaken by another request.  `step`
cuts the handler at its four service calls; each call is one atomic step on
the shared store. -/

/-- Where a run stands: the local variables that are live between two service
calls, or the outcome once it has returned. -/
inductive Pc
  | start
  | resolved (form : FirstInstallReportForm)
  | absent (form : FirstInstallReportForm)
  | provisioned (form : FirstInstallReportForm) (defaultCollection : AddressBookCollection)
  | done (o : Outcome)
deriving DecidableEq, Repr

/-- The number of steps a run can still take. -/
def Pc.rank : Pc → Nat
  | .start => 4
  | .resolved _ => 3
  | .absent _ => 2
  | .provisioned _ _ => 1
  | .done _ => 0

/-- A run in progress: its position and the calls it has made so far. -/
structure Thread where
  pc : Pc
  calls : List Call
deriving DecidableEq, Repr

/-- A run that has not started. -/
def Thread.init : Thread :=
  { pc := .start, calls := [] }

/-- The handler up to and including its next service call
(report.go: lines 37-55, 58-62, 65-72, 75-94). -/
def step {σ : Type} (svc : Services σ) (env : Env)
    (bind : Except String FirstInstallReportForm) (t : Thread) (s : σ) : Thread × σ :=
  match t.pc with
  | .start =>
    match bind with
    | .error err =>
      ({ pc := .done (.responded (.Fail 101 (env.TranslateMsg "ParamsError" [] ++ err))),
         calls := t.calls }, s)
    | .ok form =>
      match ValidStruct env form with
      | e :: _ => ({ pc := .done (.responded (.Fail 101 e)), calls := t.calls }, s)
      | [] =>
        if (svc.InfoById s form.TargetUserId).Id = 0 then
          ({ pc := .done (.responded (.Fail 102 (env.TranslateMsg "UserNotFound" []))),
             calls := t.calls ++ [.InfoById form.TargetUserId] }, s)
        else
          ({ pc := .resolved form, calls := t.calls ++ [.InfoById form.TargetUserId] }, s)
  | .resolved form =>
    if (svc.InfoByUserIdAndId s form.TargetUserId form.ClientId).RowId > 0 then
      ({ pc := .done (.responded (.Success (env.TranslateMsg "DeviceAlreadyExists" []))),
         calls := t.calls ++ [.InfoByUserIdAndId form.TargetUserId form.ClientId] }, s)
    else
      ({ pc := .absent form,
         calls := t.calls ++ [.InfoByUserIdAndId form.TargetUserId form.ClientId] }, s)
  | .absent form =>
    match env.LoadLocation "Asia/Shanghai" with
    | Option.none =>
      ({ pc := .done (.panicked "time: missing Location in call to Time.In"),
         calls := t.calls }, s)
    | some loc =>
      match svc.GetOrCreateDateCollection s form.TargetUserId (In env.Now loc).Format with
      | (s1, .error err) =>
        ({ pc := .done (.responded
             (.Fail 103 (env.TranslateMsg "OperationFailed" [] ++ err.msg))),
           calls := t.calls ++
             [.GetOrCreateDateCollection form.TargetUserId (In env.Now loc).Format,
              .LoggerError ("创建/获取日期地址簿失败: " ++ err.msg)] }, s1)
      | (s1, .ok defaultCollection) =>
        ({ pc := .provisioned form defaultCollection,
           calls := t.calls ++
             [.GetOrCreateDateCollection form.TargetUserId (In env.Now loc).Format] }, s1)
  | .provisioned form defaultCollection =>
    match svc.Create s (firstInstallEntry form defaultCollection.Id) with
    | (s2, some err) =>
      ({ pc := .done (.responded
           (.Fail 103 (env.TranslateMsg "OperationFailed" [] ++ err.msg))),
         calls := t.calls ++
           [.Create (firstInstallEntry form defaultCollection.Id),
            .LoggerError ("添加设备到地址簿失败: " ++ err.msg)] }, s2)
    | (s2, Option.none) =>
      ({ pc := .done (.responded (.Success (env.TranslateMsg "DeviceAddedSuccessfully"
           [toString form.TargetUserId]))),
         calls := t.calls ++ [.Create (firstInstallEntry form defaultCollection.Id)] }, s2)
  | .done _ => (t, s)

/-- A run taken through `n` steps without interruption. -/
def steps {σ : Type} (svc : Services σ) (env : Env)
    (bind : Except String FirstInstallReportForm) : Nat → Thread × σ → Thread × σ
  | 0, ts => ts
  | n + 1, ts => steps svc env bind n (step svc env bind ts.1 ts.2)

/-- Two runs `a` and `b` in progress over one store. -/
structure Race where
  a : Thread
  b : Thread
  store : Store
deriving DecidableEq, Repr

/-- Both runs about to start on `s`. -/
def Race.init (s : Store) : Race :=
  { a := Thread.init, b := Thread.init, store := s }

/-- Run a schedule: `true` lets run `a` take its next step, `false` run `b`. -/
def interleave (ra rb : Report) : List Bool → Race → Race
  | [], st => st
  | true :: rest, st =>
    let ts := step (storeServices ra.faults) ra.env ra.bind st.a st.store
    interleave ra rb rest { a := ts.1, b := st.b, store := ts.2 }
  | false :: rest, st =>
    let ts := step (storeServices rb.faults) rb.env rb.bind st.b st.store
    interleave ra rb rest { a := st.a, b := ts.1, store := ts.2 }

/-- The first report of the sample device, on 2024-01-01. -/
def sampleReport : Report :=
  { env := sampleEnv 1704067200, faults := Faults.none, bind := .ok sampleForm }

instance Store.decidableWF (s : Store) : Decidable s.WF := by
  unfold Store.WF; infer_instance

/-- Run `x` of a race: `true` is run `a`, `false` is run `b`. -/
def Race.thread (st : Race) (x : Bool) : Thread :=
  match x with
  | true => st.a
  | false => st.b

/-- One step of run `x` in a race of the reports `ra` (run `a`) and `rb`
(run `b`). -/
def Race.stepBy (ra rb : Report) (x : Bool) (st : Race) : Race :=
  match x with
  | true =>
    { a := (step (storeServices ra.faults) ra.env ra.bind st.a st.store).1,
      b := st.b,
      store := (step (storeServices ra.faults) ra.env ra.bind st.a st.store).2 }
  | false =>
    { a := st.a,
      b := (step (storeServices rb.faults) rb.env rb.bind st.b st.store).1,
      store := (step (storeServices rb.faults) rb.env rb.bind st.b st.store).2 }

/-- The report of run `x` when two first reports race and the persistence
layer has no fault of its own. -/
def racer (env : Bool → Env) (form : Bool → FirstInstallReportForm) (x : Bool) : Report :=
  { env := env x, faults := Faults.none, bind := .ok (form x) }

/-- The race of the two reports on the store `s` under a schedule. -/
def race (env : Bool → Env) (form : Bool → FirstInstallReportForm) (sched : List Bool)
    (s : Store) : Race :=
  interleave (racer env form true) (racer env form false) sched (Race.init s)

/-- A run of `form` that has taken `k` steps, none of them the insert. -/
def Thread.before (form : FirstInstallReportForm) (k : Nat) (t : Thread) : Prop :=
  createdEntries t.calls = [] ∧
  ((k = 0 ∧ t.pc = .start) ∨ (k = 1 ∧ t.pc = .resolved form) ∨ (k = 2 ∧ t.pc = .absent form) ∨
    (k = 3 ∧ ∃ c, t.pc = .provisioned form c))

/-- A run of `form` whose own `Create` stored the entry: it answered "added"
after one `Create` call. -/
def Thread.won (env : Env) (form : FirstInstallReportForm) (t : Thread) : Prop :=
  t.pc = .done (.responded (.Success (env.TranslateMsg "DeviceAddedSuccessfully"
    [toString form.TargetUserId]))) ∧
  (createdEntries t.calls).length = 1

/-- A run of `form` once the other run has stored the entry. `early` says that
its existence check came before that insert: then it is on its way to `Create`
or has answered operation-failed 103 on the conflict; otherwise it has not
checked yet or has answered "already exists" without calling `Create`. -/
def Thread.lost (env : Env) (form : FirstInstallReportForm) (early : Bool) (t : Thread) :
    Prop :=
  (early = true ∧ createdEntries t.calls = [] ∧
    (t.pc = .absent form ∨ ∃ c, t.pc = .provisioned form c)) ∨
  (early = true ∧
    t.pc = .done (.responded (.Fail 103 (env.TranslateMsg "OperationFailed" [] ++ conflictMsg)))
    ∧ (createdEntries t.calls).length = 1) ∨
  (early = false ∧ createdEntries t.calls = [] ∧
    (t.pc = .start ∨ t.pc = .resolved form ∨
      t.pc = .done (.responded (.Success (env.TranslateMsg "DeviceAlreadyExists" [])))))

/-- What holds once run `w` has stored the entry. -/
def Race.after (env : Bool → Env) (form : Bool → FirstInstallReportForm) (users : List User)
    (userId : Nat) (id : String) (w early : Bool) (st : Race) : Prop :=
  st.store.WF ∧ st.store.users = users ∧ st.store.entryCount userId id = 1 ∧
  (∃ a ∈ st.store.addressBooks, a.UserId = userId ∧ a.Id = id ∧
    a.Hostname = (form w).Hostname ∧ a.Platform = (form w).Platform) ∧
  (st.thread w).won (env w) (form w) ∧
  (st.thread (!w)).lost (env (!w)) (form (!w)) early

/-- The label `YYYY-MM-DD` of a date with a four-digit year: zero-padded
decimal fields joined by hyphens. -/
def dateLabel (year month day : Nat) : String :=
  String.mk [digitChar (year / 1000), digitChar (year / 100 % 10), digitChar (year / 10 % 10),
    digitChar (year % 10), '-', digitChar (month / 10), digitChar (month % 10), '-',
    digitChar (day / 10), digitChar (day % 10)]

/-! # Theorems -/

/-! ### The handler, branch by branch -/

theorem ValidStruct_eq_nil (env : Env) (form : FirstInstallReportForm)
    (hc : form.ClientId ≠ "") (hu : form.TargetUserId ≠ 0) : ValidStruct env form = [] := by
  simp [ValidStruct, hc, hu]

theorem ValidStruct_ne_nil (env : Env) (form : FirstInstallReportForm)
    (h : form.ClientId = "" ∨ form.TargetUserId = 0) :
    ∃ e rest, ValidStruct env form = e :: rest := by
  unfold ValidStruct
  by_cases hc : form.ClientId = ""
  · simp [hc]
  · rcases h with h | h
    · exact absurd h hc
    · simp [hc, h]

/-- C2. Validation: a bound report whose `client_id` is empty or whose
`target_user_id` is 0 gets a failure response with code 101, the store is left
as it was, and the run makes no service call at all: no user lookup, no device
lookup, no `GetOrCreateDateCollection`, no `Create`. -/
theorem FirstInstallReport_validation {σ : Type} (svc : Services σ) (env : Env)
    (form : FirstInstallReportForm) (s : σ)
    (h : form.ClientId = "" ∨ form.TargetUserId = 0) :
    (∃ msg, (FirstInstallReport svc env (.ok form) s).outcome = .responded (.Fail 101 msg)) ∧
    (FirstInstallReport svc env (.ok form) s).state = s ∧
    (FirstInstallReport svc env (.ok form) s).calls = [] := by
  obtain ⟨e, rest, he⟩ := ValidStruct_ne_nil env form h
  simp [FirstInstallReport, he]

/-- C2 at the sample store, for a report without a client id. -/
theorem FirstInstallReport_validation_witness :
    (∃ msg, (FirstInstallReport (storeServices Faults.none) (sampleEnv 1704067200)
        (.ok { sampleForm with ClientId := "" }) sampleStore).outcome
          = .responded (.Fail 101 msg)) ∧
    (FirstInstallReport (storeServices Faults.none) (sampleEnv 1704067200)
        (.ok { sampleForm with ClientId := "" }) sampleStore).state = sampleStore ∧
    (FirstInstallReport (storeServices Faults.none) (sampleEnv 1704067200)
        (.ok { sampleForm with ClientId := "" }) sampleStore).calls = [] :=
  FirstInstallReport_validation _ _ _ _ (Or.inl rfl)

/-- C3. Not found: for a structurally valid report whose target user resolves
to the zero record (`InfoById` returns `Id = 0`), the response is failure 102
with the `UserNotFound` message, the store is left as it was, and the only
service call of the run is the user lookup. -/
theorem FirstInstallReport_user_not_found {σ : Type} (svc : Services σ) (env : Env)
    (form : FirstInstallReportForm) (s : σ)
    (hc : form.ClientId ≠ "") (hu : form.TargetUserId ≠ 0)
    (h : (svc.InfoById s form.TargetUserId).Id = 0) :
    (FirstInstallReport svc env (.ok form) s).outcome
        = .responded (.Fail 102 (env.TranslateMsg "UserNotFound" [])) ∧
    (FirstInstallReport svc env (.ok form) s).state = s ∧
    (FirstInstallReport svc env (.ok form) s).calls = [.InfoById form.TargetUserId] := by
  simp [FirstInstallReport, ValidStruct_eq_nil env form hc hu, h]

/-- C3 at the sample store, for a report that names user 7. -/
theorem FirstInstallReport_user_not_found_witness :
    (FirstInstallReport (storeServices Faults.none) (sampleEnv 1704067200)
        (.ok { sampleForm with TargetUserId := 7 }) sampleStore).outcome
      = .responded (.Fail 102 "UserNotFound") ∧
    (FirstInstallReport (storeServices Faults.none) (sampleEnv 1704067200)
        (.ok { sampleForm with TargetUserId := 7 }) sampleStore).state = sampleStore ∧
    (FirstInstallReport (storeServices Faults.none) (sampleEnv 1704067200)
        (.ok { sampleForm with TargetUserId := 7 }) sampleStore).calls = [.InfoById 7] :=
  FirstInstallReport_user_not_found (storeServices Faults.none) (sampleEnv 1704067200)
    { sampleForm with TargetUserId := 7 } sampleStore (by decide) (by decide) (by decide)

theorem FirstInstallReport_past_checks {σ : Type} (svc : Services σ) (env : Env)
    (form : FirstInstallReportForm) (s : σ) (loc : Location)
    (hc : form.ClientId ≠ "") (hu : form.TargetUserId ≠ 0)
    (huser : (svc.InfoById s form.TargetUserId).Id ≠ 0)
    (hnew : (svc.InfoByUserIdAndId s form.TargetUserId form.ClientId).RowId = 0)
    (hloc : env.LoadLocation "Asia/Shanghai" = some loc) :
    FirstInstallReport svc env (.ok form) s =
      match svc.GetOrCreateDateCollection s form.TargetUserId (In env.Now loc).Format with
      | (s1, .error err) =>
        { outcome :=
            .responded (.Fail 103 (env.TranslateMsg "OperationFailed" [] ++ err.msg)),
          state := s1,
          calls := [.InfoById form.TargetUserId,
                    .InfoByUserIdAndId form.TargetUserId form.ClientId,
                    .GetOrCreateDateCollection form.TargetUserId (In env.Now loc).Format,
                    .LoggerError ("创建/获取日期地址簿失败: " ++ err.msg)] }
      | (s1, .ok defaultCollection) =>
        match svc.Create s1 (firstInstallEntry form defaultCollection.Id) with
        | (s2, some err) =>
          { outcome :=
              .responded (.Fail 103 (env.TranslateMsg "OperationFailed" [] ++ err.msg)),
            state := s2,
            calls := [.InfoById form.TargetUserId,
                      .InfoByUserIdAndId form.TargetUserId form.ClientId,
                      .GetOrCreateDateCollection form.TargetUserId (In env.Now loc).Format,
                      .Create (firstInstallEntry form defaultCollection.Id),
                      .LoggerError ("添加设备到地址簿失败: " ++ err.msg)] }
        | (s2, none) =>
          { outcome :=
              .responded (.Success (env.TranslateMsg "DeviceAddedSuccessfully"
                [toString form.TargetUserId])),
            state := s2,
            calls := [.InfoById form.TargetUserId,
                      .InfoByUserIdAndId form.TargetUserId form.ClientId,
                      .GetOrCreateDateCollection form.TargetUserId (In env.Now loc).Format,
                      .Create (firstInstallEntry form defaultCollection.Id)] } := by
  simp [FirstInstallReport, ValidStruct_eq_nil env form hc hu, huser, hnew, hloc, firstInstallEntry]

theorem FirstInstallReport_provision_failed {σ : Type} (svc : Services σ) (env : Env)
    (form : FirstInstallReportForm) (s s1 : σ) (loc : Location) (err : GoError)
    (hc : form.ClientId ≠ "") (hu : form.TargetUserId ≠ 0)
    (huser : (svc.InfoById s form.TargetUserId).Id ≠ 0)
    (hnew : (svc.InfoByUserIdAndId s form.TargetUserId form.ClientId).RowId = 0)
    (hloc : env.LoadLocation "Asia/Shanghai" = some loc)
    (hprov : svc.GetOrCreateDateCollection s form.TargetUserId (In env.Now loc).Format
      = (s1, .error err)) :
    FirstInstallReport svc env (.ok form) s =
      { outcome := .responded (.Fail 103 (env.TranslateMsg "OperationFailed" [] ++ err.msg)),
        state := s1,
        calls := [.InfoById form.TargetUserId,
                  .InfoByUserIdAndId form.TargetUserId form.ClientId,
                  .GetOrCreateDateCollection form.TargetUserId (In env.Now loc).Format,
                  .LoggerError ("创建/获取日期地址簿失败: " ++ err.msg)] } := by
  rw [FirstInstallReport_past_checks svc env form s loc hc hu huser hnew hloc, hprov]

theorem FirstInstallReport_create_failed {σ : Type} (svc : Services σ) (env : Env)
    (form : FirstInstallReportForm) (s s1 s2 : σ) (loc : Location) (c : AddressBookCollection)
    (err : GoError)
    (hc : form.ClientId ≠ "") (hu : form.TargetUserId ≠ 0)
    (huser : (svc.InfoById s form.TargetUserId).Id ≠ 0)
    (hnew : (svc.InfoByUserIdAndId s form.TargetUserId form.ClientId).RowId = 0)
    (hloc : env.LoadLocation "Asia/Shanghai" = some loc)
    (hprov : svc.GetOrCreateDateCollection s form.TargetUserId (In env.Now loc).Format
      = (s1, .ok c))
    (hcreate : svc.Create s1 (firstInstallEntry form c.Id) = (s2, some err)) :
    FirstInstallReport svc env (.ok form) s =
      { outcome := .responded (.Fail 103 (env.TranslateMsg "OperationFailed" [] ++ err.msg)),
        state := s2,
        calls := [.InfoById form.TargetUserId,
                  .InfoByUserIdAndId form.TargetUserId form.ClientId,
                  .GetOrCreateDateCollection form.TargetUserId (In env.Now loc).Format,
                  .Create (firstInstallEntry form c.Id),
                  .LoggerError ("添加设备到地址簿失败: " ++ err.msg)] } := by
  rw [FirstInstallReport_past_checks svc env form s loc hc hu huser hnew hloc, hprov]
  simp only [hcreate]

theorem FirstInstallReport_created {σ : Type} (svc : Services σ) (env : Env)
    (form : FirstInstallReportForm) (s s1 s2 : σ) (loc : Location) (c : AddressBookCollection)
    (hc : form.ClientId ≠ "") (hu : form.TargetUserId ≠ 0)
    (huser : (svc.InfoById s form.TargetUserId).Id ≠ 0)
    (hnew : (svc.InfoByUserIdAndId s form.TargetUserId form.ClientId).RowId = 0)
    (hloc : env.LoadLocation "Asia/Shanghai" = some loc)
    (hprov : svc.GetOrCreateDateCollection s form.TargetUserId (In env.Now loc).Format
      = (s1, .ok c))
    (hcreate : svc.Create s1 (firstInstallEntry form c.Id) = (s2, Option.none)) :
    FirstInstallReport svc env (.ok form) s =
      { outcome := .responded (.Success (env.TranslateMsg "DeviceAddedSuccessfully"
          [toString form.TargetUserId])),
        state := s2,
        calls := [.InfoById form.TargetUserId,
                  .InfoByUserIdAndId form.TargetUserId form.ClientId,
                  .GetOrCreateDateCollection form.TargetUserId (In env.Now loc).Format,
                  .Create (firstInstallEntry form c.Id)] } := by
  rw [FirstInstallReport_past_checks svc env form s loc hc hu huser hnew hloc, hprov]
  simp only [hcreate]

theorem FirstInstallReport_cases {σ : Type} (svc : Services σ) (env : Env)
    (bind : Except String FirstInstallReportForm) (s : σ) :
    ((FirstInstallReport svc env bind s).state = s ∧
      createdEntries (FirstInstallReport svc env bind s).calls = [] ∧
      provisionRequests (FirstInstallReport svc env bind s).calls = [] ∧
      registered (FirstInstallReport svc env bind s) = Option.none) ∨
    (∃ form loc s1 err, bind = .ok form ∧ env.LoadLocation "Asia/Shanghai" = some loc ∧
      svc.GetOrCreateDateCollection s form.TargetUserId (In env.Now loc).Format
        = (s1, .error err) ∧
      (FirstInstallReport svc env bind s).state = s1 ∧
      createdEntries (FirstInstallReport svc env bind s).calls = [] ∧
      registered (FirstInstallReport svc env bind s) = Option.none) ∨
    (∃ form loc s1 c s2 oerr, bind = .ok form ∧ env.LoadLocation "Asia/Shanghai" = some loc ∧
      svc.GetOrCreateDateCollection s form.TargetUserId (In env.Now loc).Format
        = (s1, .ok c) ∧
      svc.Create s1 (firstInstallEntry form c.Id) = (s2, oerr) ∧
      (FirstInstallReport svc env bind s).state = s2 ∧
      createdEntries (FirstInstallReport svc env bind s).calls = [firstInstallEntry form c.Id] ∧
      registered (FirstInstallReport svc env bind s) =
        if oerr = Option.none then some ((In env.Now loc).Format, firstInstallEntry form c.Id)
        else Option.none) := by
  cases bind with
  | error err => left; simp [FirstInstallReport, createdEntries, provisionRequests, registered]
  | ok form =>
    cases hv : ValidStruct env form with
    | cons e rest =>
      left; simp [FirstInstallReport, hv, createdEntries, provisionRequests, registered]
    | nil =>
      by_cases hu : (svc.InfoById s form.TargetUserId).Id = 0
      · left; simp [FirstInstallReport, hv, hu, createdEntries, provisionRequests, registered]
      · by_cases he : (svc.InfoByUserIdAndId s form.TargetUserId form.ClientId).RowId > 0
        · left
          simp [FirstInstallReport, hv, hu, he, createdEntries, provisionRequests, registered]
        · cases hl : env.LoadLocation "Asia/Shanghai" with
          | none =>
            left
            simp [FirstInstallReport, hv, hu, he, hl, createdEntries, provisionRequests,
              registered]
          | some loc =>
            rcases hp : svc.GetOrCreateDateCollection s form.TargetUserId
              (In env.Now loc).Format with ⟨s1, r⟩
            cases r with
            | error err =>
              right; left
              refine ⟨form, loc, s1, err, rfl, rfl, hp, ?_⟩
              simp [FirstInstallReport, hv, hu, he, hl, hp, createdEntries, registered]
            | ok c =>
              right; right
              rcases hc : svc.Create s1 (firstInstallEntry form c.Id) with ⟨s2, oerr⟩
              refine ⟨form, loc, s1, c, s2, oerr, rfl, rfl, hp, hc, ?_⟩
              rw [firstInstallEntry] at hc
              cases oerr with
              | none =>
                simp [FirstInstallReport, hv, hu, he, hl, hp, hc, createdEntries, registered,
                  firstInstallEntry]
              | some err =>
                simp [FirstInstallReport, hv, hu, he, hl, hp, hc, createdEntries, registered,
                  firstInstallEntry]

/-! ### The date label -/

theorem civil_month_day (days : Int) :
    1 ≤ (civil days).2.1 ∧ (civil days).2.1 ≤ 12 ∧ 1 ≤ (civil days).2.2 ∧ (civil days).2.2 ≤ 31 := by
  simp only [civil]
  have h0 := Int.emod_nonneg (days + 719468) (by norm_num : (146097 : Int) ≠ 0)
  have h1 := Int.emod_lt_of_pos (days + 719468) (by norm_num : (0 : Int) < 146097)
  generalize (days + 719468) % 146097 = doe at h0 h1
  split_ifs <;> omega

/-- The day count agrees with the calendar at the epoch, around leap days, at
the turn of a century and before the epoch. -/
theorem civil_known_dates :
    civil 0 = (1970, 1, 1) ∧ civil (-1) = (1969, 12, 31) ∧ civil 11016 = (2000, 2, 29) ∧
    civil 11017 = (2000, 3, 1) ∧ civil 19723 = (2024, 1, 1) ∧ civil 19782 = (2024, 2, 29) ∧
    civil 47540 = (2100, 2, 28) ∧ civil 47541 = (2100, 3, 1) ∧
    civil (-719468) = (0, 3, 1) ∧ civil 2932896 = (9999, 12, 31) := by
  decide

set_option maxHeartbeats 2000000 in
/-- The year of the era is the one whose days contain the day of the era. -/
theorem yearOfEra_spec (doe : Int) (h0 : 0 ≤ doe) (h1 : doe ≤ 146096) :
    0 ≤ yearOfEra doe ∧ yearOfEra doe ≤ 399 ∧
    365 * yearOfEra doe + yearOfEra doe / 4 - yearOfEra doe / 100 ≤ doe ∧
    (doe < 365 * (yearOfEra doe + 1) + (yearOfEra doe + 1) / 4 - (yearOfEra doe + 1) / 100 ∨
      (yearOfEra doe = 399 ∧ doe = 146096)) := by
  unfold yearOfEra
  have e0 : 0 ≤ doe / 1460 := by omega
  have e1 : doe / 1460 ≤ 100 := by omega
  generalize he : doe / 1460 = e at e0 e1 ⊢
  interval_cases e <;>
    first
    | omega
    | (rcases (by omega : doe / 36524 = 0 ∨ doe / 36524 = 1 ∨ doe / 36524 = 2 ∨
          doe / 36524 = 3 ∨ doe / 36524 = 4) with h | h | h | h | h <;>
        rcases (by omega : doe / 146096 = 0 ∨ doe / 146096 = 1) with g | g <;> omega)

/-- The day count splits into era, year of the era and day of the year. -/
theorem civil_eq_dateOf (n : Int) :
    civil n = dateOf ((n + 719468) / 146097) (yearOfEra ((n + 719468) % 146097))
      ((n + 719468) % 146097 - (365 * yearOfEra ((n + 719468) % 146097)
        + yearOfEra ((n + 719468) % 146097) / 4 - yearOfEra ((n + 719468) % 146097) / 100)) :=
  rfl

/-- Inside a March-based year the next day of the year is the next date. -/
theorem dateOf_succ (era yoe doy : Int) (h0 : 0 ≤ doy)
    (h1 : doy + 1 ≤ 364 ∨ (doy + 1 = 365 ∧ isLeap (yoe + era * 400 + 1))) :
    dateOf era yoe (doy + 1) = nextDate (dateOf era yoe doy) := by
  simp only [dateOf, nextDate, daysIn, isLeap] at h1 ⊢
  rcases (by omega :
      (0 ≤ doy ∧ doy ≤ 29) ∨
      (doy = 30) ∨
      (31 ≤ doy ∧ doy ≤ 59) ∨
      (doy = 60) ∨
      (61 ≤ doy ∧ doy ≤ 90) ∨
      (doy = 91) ∨
      (92 ≤ doy ∧ doy ≤ 120) ∨
      (doy = 121) ∨
      (122 ≤ doy ∧ doy ≤ 151) ∨
      (doy = 152) ∨
      (153 ≤ doy ∧ doy ≤ 182) ∨
      (doy = 183) ∨
      (184 ≤ doy ∧ doy ≤ 212) ∨
      (doy = 213) ∨
      (214 ≤ doy ∧ doy ≤ 243) ∨
      (doy = 244) ∨
      (245 ≤ doy ∧ doy ≤ 273) ∨
      (doy = 274) ∨
      (275 ≤ doy ∧ doy ≤ 304) ∨
      (doy = 305) ∨
      (306 ≤ doy ∧ doy ≤ 335) ∨
      (doy = 336) ∨
      (337 ≤ doy ∧ doy ≤ 364)) with
    h | h | h | h | h | h | h | h | h | h | h | h | h | h | h | h | h | h | h | h | h | h | h
  · have e1 : (5 * doy + 2) / 153 = 0 := by omega
    have e2 : (5 * (doy + 1) + 2) / 153 = 0 := by omega
    simp only [e1, e2]
    norm_num
    split_ifs <;>
      (try simp only [Prod.mk.injEq, Prod.mk_eq_one, true_and, and_true, and_self]) <;> omega
  · have e1 : (5 * doy + 2) / 153 = 0 := by omega
    have e2 : (5 * (doy + 1) + 2) / 153 = 1 := by omega
    simp only [e1, e2]
    norm_num
    split_ifs <;>
      (try simp only [Prod.mk.injEq, Prod.mk_eq_one, true_and, and_true, and_self]) <;> omega
  · have e1 : (5 * doy + 2) / 153 = 1 := by omega
    have e2 : (5 * (doy + 1) + 2) / 153 = 1 := by omega
    simp only [e1, e2]
    norm_num
    split_ifs <;>
      (try simp only [Prod.mk.injEq, Prod.mk_eq_one, true_and, and_true, and_self]) <;> omega
  · have e1 : (5 * doy + 2) / 153 = 1 := by omega
    have e2 : (5 * (doy + 1) + 2) / 153 = 2 := by omega
    simp only [e1, e2]
    norm_num
    split_ifs <;>
      (try simp only [Prod.mk.injEq, Prod.mk_eq_one, true_and, and_true, and_self]) <;> omega
  · have e1 : (5 * doy + 2) / 153 = 2 := by omega
    have e2 : (5 * (doy + 1) + 2) / 153 = 2 := by omega
    simp only [e1, e2]
    norm_num
    split_ifs <;>
      (try simp only [Prod.mk.injEq, Prod.mk_eq_one, true_and, and_true, and_self]) <;> omega
  · have e1 : (5 * doy + 2) / 153 = 2 := by omega
    have e2 : (5 * (doy + 1) + 2) / 153 = 3 := by omega
    simp only [e1, e2]
    norm_num
    split_ifs <;>
      (try simp only [Prod.mk.injEq, Prod.mk_eq_one, true_and, and_true, and_self]) <;> omega
  · have e1 : (5 * doy + 2) / 153 = 3 := by omega
    have e2 : (5 * (doy + 1) + 2) / 153 = 3 := by omega
    simp only [e1, e2]
    norm_num
    split_ifs <;>
      (try simp only [Prod.mk.injEq, Prod.mk_eq_one, true_and, and_true, and_self]) <;> omega
  · have e1 : (5 * doy + 2) / 153 = 3 := by omega
    have e2 : (5 * (doy + 1) + 2) / 153 = 4 := by omega
    simp only [e1, e2]
    norm_num
    split_ifs <;>
      (try simp only [Prod.mk.injEq, Prod.mk_eq_one, true_and, and_true, and_self]) <;> omega
  · have e1 : (5 * doy + 2) / 153 = 4 := by omega
    have e2 : (5 * (doy + 1) + 2) / 153 = 4 := by omega
    simp only [e1, e2]
    norm_num
    split_ifs <;>
      (try simp only [Prod.mk.injEq, Prod.mk_eq_one, true_and, and_true, and_self]) <;> omega
  · have e1 : (5 * doy + 2) / 153 = 4 := by omega
    have e2 : (5 * (doy + 1) + 2) / 153 = 5 := by omega
    simp only [e1, e2]
    norm_num
    split_ifs <;>
      (try simp only [Prod.mk.injEq, Prod.mk_eq_one, true_and, and_true, and_self]) <;> omega
  · have e1 : (5 * doy + 2) / 153 = 5 := by omega
    have e2 : (5 * (doy + 1) + 2) / 153 = 5 := by omega
    simp only [e1, e2]
    norm_num
    split_ifs <;>
      (try simp only [Prod.mk.injEq, Prod.mk_eq_one, true_and, and_true, and_self]) <;> omega
  · have e1 : (5 * doy + 2) / 153 = 5 := by omega
    have e2 : (5 * (doy + 1) + 2) / 153 = 6 := by omega
    simp only [e1, e2]
    norm_num
    split_ifs <;>
      (try simp only [Prod.mk.injEq, Prod.mk_eq_one, true_and, and_true, and_self]) <;> omega
  · have e1 : (5 * doy + 2) / 153 = 6 := by omega
    have e2 : (5 * (doy + 1) + 2) / 153 = 6 := by omega
    simp only [e1, e2]
    norm_num
    split_ifs <;>
      (try simp only [Prod.mk.injEq, Prod.mk_eq_one, true_and, and_true, and_self]) <;> omega
  · have e1 : (5 * doy + 2) / 153 = 6 := by omega
    have e2 : (5 * (doy + 1) + 2) / 153 = 7 := by omega
    simp only [e1, e2]
    norm_num
    split_ifs <;>
      (try simp only [Prod.mk.injEq, Prod.mk_eq_one, true_and, and_true, and_self]) <;> omega
  · have e1 : (5 * doy + 2) / 153 = 7 := by omega
    have e2 : (5 * (doy + 1) + 2) / 153 = 7 := by omega
    simp only [e1, e2]
    norm_num
    split_ifs <;>
      (try simp only [Prod.mk.injEq, Prod.mk_eq_one, true_and, and_true, and_self]) <;> omega
  · have e1 : (5 * doy + 2) / 153 = 7 := by omega
    have e2 : (5 * (doy + 1) + 2) / 153 = 8 := by omega
    simp only [e1, e2]
    norm_num
    split_ifs <;>
      (try simp only [Prod.mk.injEq, Prod.mk_eq_one, true_and, and_true, and_self]) <;> omega
  · have e1 : (5 * doy + 2) / 153 = 8 := by omega
    have e2 : (5 * (doy + 1) + 2) / 153 = 8 := by omega
    simp only [e1, e2]
    norm_num
    split_ifs <;>
      (try simp only [Prod.mk.injEq, Prod.mk_eq_one, true_and, and_true, and_self]) <;> omega
  · have e1 : (5 * doy + 2) / 153 = 8 := by omega
    have e2 : (5 * (doy + 1) + 2) / 153 = 9 := by omega
    simp only [e1, e2]
    norm_num
    split_ifs <;>
      (try simp only [Prod.mk.injEq, Prod.mk_eq_one, true_and, and_true, and_self]) <;> omega
  · have e1 : (5 * doy + 2) / 153 = 9 := by omega
    have e2 : (5 * (doy + 1) + 2) / 153 = 9 := by omega
    simp only [e1, e2]
    norm_num
    split_ifs <;>
      (try simp only [Prod.mk.injEq, Prod.mk_eq_one, true_and, and_true, and_self]) <;> omega
  · have e1 : (5 * doy + 2) / 153 = 9 := by omega
    have e2 : (5 * (doy + 1) + 2) / 153 = 10 := by omega
    simp only [e1, e2]
    norm_num
    split_ifs <;>
      (try simp only [Prod.mk.injEq, Prod.mk_eq_one, true_and, and_true, and_self]) <;> omega
  · have e1 : (5 * doy + 2) / 153 = 10 := by omega
    have e2 : (5 * (doy + 1) + 2) / 153 = 10 := by omega
    simp only [e1, e2]
    norm_num
    split_ifs <;>
      (try simp only [Prod.mk.injEq, Prod.mk_eq_one, true_and, and_true, and_self]) <;> omega
  · have e1 : (5 * doy + 2) / 153 = 10 := by omega
    have e2 : (5 * (doy + 1) + 2) / 153 = 11 := by omega
    simp only [e1, e2]
    norm_num
    split_ifs <;>
      (try simp only [Prod.mk.injEq, Prod.mk_eq_one, true_and, and_true, and_self]) <;> omega
  · have e1 : (5 * doy + 2) / 153 = 11 := by omega
    have e2 : (5 * (doy + 1) + 2) / 153 = 11 := by omega
    simp only [e1, e2]
    norm_num
    split_ifs <;>
      (try simp only [Prod.mk.injEq, Prod.mk_eq_one, true_and, and_true, and_self]) <;> omega

/-- The last day of a March-based year is followed by 1 March. -/
theorem dateOf_year_turn (era yoe doy : Int)
    (h : (doy = 364 ∧ ¬ isLeap (yoe + era * 400 + 1)) ∨
      (doy = 365 ∧ isLeap (yoe + era * 400 + 1))) :
    nextDate (dateOf era yoe doy) = (yoe + 1 + era * 400, 3, 1) := by
  simp only [dateOf, nextDate, daysIn, isLeap] at h ⊢
  rcases h with ⟨rfl, h⟩ | ⟨rfl, h⟩
  · norm_num
    split_ifs <;>
      (try simp only [Prod.mk.injEq, Prod.mk_eq_one, true_and, and_true, and_self]) <;> omega
  · norm_num
    split_ifs <;>
      (try simp only [Prod.mk.injEq, Prod.mk_eq_one, true_and, and_true, and_self]) <;> omega

theorem dateOf_zero (era yoe : Int) : dateOf era yoe 0 = (yoe + era * 400, 3, 1) := by
  simp [dateOf]

/-- Day counts step through the calendar: the date of the next day count is the
day after the date of this one. -/
theorem civil_succ (n : Int) : civil (n + 1) = nextDate (civil n) := by
  rw [civil_eq_dateOf n, civil_eq_dateOf (n + 1)]
  have h0 := Int.emod_nonneg (n + 719468) (by norm_num : (146097 : Int) ≠ 0)
  have h1 := Int.emod_lt_of_pos (n + 719468) (by norm_num : (0 : Int) < 146097)
  by_cases hlast : (n + 719468) % 146097 = 146096
  · have e1 : (n + 1 + 719468) / 146097 = (n + 719468) / 146097 + 1 := by omega
    have e2 : (n + 1 + 719468) % 146097 = 0 := by omega
    have y0 : yearOfEra 0 = 0 := by decide
    have y1 : yearOfEra 146096 = 399 := by decide
    rw [e1, e2, hlast, y0, y1]
    generalize (n + 719468) / 146097 = era
    have hleap : isLeap (399 + era * 400 + 1) := by
      unfold isLeap; omega
    have d1 : (146096 : Int) - (365 * 399 + 399 / 4 - 399 / 100) = 365 := by decide
    have d0 : (0 : Int) - (365 * 0 + 0 / 4 - 0 / 100) = 0 := by decide
    rw [d1, d0, dateOf_zero, dateOf_year_turn era 399 365 (Or.inr ⟨rfl, hleap⟩)]
    simp only [Prod.mk.injEq, and_true]
    omega
  · have e1 : (n + 1 + 719468) / 146097 = (n + 719468) / 146097 := by omega
    have e2 : (n + 1 + 719468) % 146097 = (n + 719468) % 146097 + 1 := by omega
    rw [e1, e2]
    generalize (n + 719468) / 146097 = era
    generalize (n + 719468) % 146097 = doe at h0 h1 hlast ⊢
    have s1 := yearOfEra_spec doe h0 (by omega)
    have s2 := yearOfEra_spec (doe + 1) (by omega) (by omega)
    generalize yearOfEra doe = yoe at s1 ⊢
    generalize yearOfEra (doe + 1) = yoe2 at s2 ⊢
    have hy : yoe2 = yoe ∨ yoe2 = yoe + 1 := by omega
    rcases hy with rfl | rfl
    · have hd : doe + 1 - (365 * yoe2 + yoe2 / 4 - yoe2 / 100)
          = doe - (365 * yoe2 + yoe2 / 4 - yoe2 / 100) + 1 := by omega
      rw [hd]
      have m4 : (yoe2 + era * 400 + 1) % 4 = (yoe2 + 1) % 4 := by omega
      have m100 : (yoe2 + era * 400 + 1) % 100 = (yoe2 + 1) % 100 := by omega
      have m400 : (yoe2 + era * 400 + 1) % 400 = (yoe2 + 1) % 400 := by omega
      have q4 : (yoe2 + 1) / 4 = yoe2 / 4 ∧ (yoe2 + 1) % 4 ≠ 0 ∨
          (yoe2 + 1) / 4 = yoe2 / 4 + 1 ∧ (yoe2 + 1) % 4 = 0 := by omega
      have q100 : (yoe2 + 1) / 100 = yoe2 / 100 ∧ (yoe2 + 1) % 100 ≠ 0 ∨
          (yoe2 + 1) / 100 = yoe2 / 100 + 1 ∧ (yoe2 + 1) % 100 = 0 := by omega
      apply dateOf_succ
      · omega
      · simp only [isLeap, m4, m100, m400]
        omega
    · have hd : doe + 1 - (365 * (yoe + 1) + (yoe + 1) / 4 - (yoe + 1) / 100) = 0 := by omega
      have m4 : (yoe + era * 400 + 1) % 4 = (yoe + 1) % 4 := by omega
      have m100 : (yoe + era * 400 + 1) % 100 = (yoe + 1) % 100 := by omega
      have m400 : (yoe + era * 400 + 1) % 400 = (yoe + 1) % 400 := by omega
      have q4 : (yoe + 1) / 4 = yoe / 4 ∧ (yoe + 1) % 4 ≠ 0 ∨
          (yoe + 1) / 4 = yoe / 4 + 1 ∧ (yoe + 1) % 4 = 0 := by omega
      have q100 : (yoe + 1) / 100 = yoe / 100 ∧ (yoe + 1) % 100 ≠ 0 ∨
          (yoe + 1) / 100 = yoe / 100 + 1 ∧ (yoe + 1) % 100 = 0 := by omega
      rw [hd, dateOf_zero, dateOf_year_turn era yoe _ (by
        simp only [isLeap, m4, m100, m400]
        omega)]

theorem digitsRev_small (fuel n : Nat) (h : n < 10) : digitsRev (fuel + 1) n = [digitChar n] := by
  simp [digitsRev]; omega

theorem digitsRev_large (fuel n : Nat) (h : 10 ≤ n) :
    digitsRev (fuel + 1) n = digitChar (n % 10) :: digitsRev fuel (n / 10) := by
  simp [digitsRev, h]

theorem appendInt_nonneg (x : Int) (width : Nat) (h : 0 ≤ x) :
    appendInt x width =
      List.replicate (width - (digitsRev 20 x.natAbs).length) '0'
        ++ (digitsRev 20 x.natAbs).reverse := by
  have hx : ¬ x < 0 := by omega
  simp [appendInt, hx]

theorem appendInt_two (x : Int) (h0 : 0 ≤ x) (h1 : x ≤ 99) :
    appendInt x 2 = [digitChar (x.natAbs / 10), digitChar (x.natAbs % 10)] := by
  rw [appendInt_nonneg x 2 h0]
  have hn : x.natAbs ≤ 99 := by omega
  generalize x.natAbs = n at hn ⊢
  by_cases h : n < 10
  · have e1 : n / 10 = 0 := by omega
    have e2 : n % 10 = n := by omega
    rw [digitsRev_small _ _ h, e1, e2]
    rfl
  · have h2 : n / 10 < 10 := by omega
    rw [digitsRev_large 19 n (by omega), digitsRev_small _ _ h2]
    rfl

theorem appendInt_four (x : Int) (h0 : 0 ≤ x) (h1 : x ≤ 9999) :
    appendInt x 4 = [digitChar (x.natAbs / 1000), digitChar (x.natAbs / 100 % 10),
      digitChar (x.natAbs / 10 % 10), digitChar (x.natAbs % 10)] := by
  rw [appendInt_nonneg x 4 h0]
  have hn : x.natAbs ≤ 9999 := by omega
  generalize x.natAbs = n at hn ⊢
  by_cases h : n < 10
  · have e1 : n / 1000 = 0 := by omega
    have e2 : n / 100 % 10 = 0 := by omega
    have e3 : n / 10 % 10 = 0 := by omega
    have e4 : n % 10 = n := by omega
    rw [digitsRev_small _ _ h, e1, e2, e3, e4]
    rfl
  · by_cases h' : n < 100
    · have h2 : n / 10 < 10 := by omega
      have e1 : n / 1000 = 0 := by omega
      have e2 : n / 100 % 10 = 0 := by omega
      have e3 : n / 10 % 10 = n / 10 := by omega
      rw [digitsRev_large 19 n (by omega), digitsRev_small _ _ h2, e1, e2, e3]
      rfl
    · by_cases h'' : n < 1000
      · have h2 : n / 10 / 10 < 10 := by omega
        have e1 : n / 1000 = 0 := by omega
        have e2 : n / 100 % 10 = n / 10 / 10 := by omega
        rw [digitsRev_large 19 n (by omega), digitsRev_large 18 (n / 10) (by omega),
          digitsRev_small _ _ h2, e1, e2]
        rfl
      · have h2 : n / 10 / 10 / 10 < 10 := by omega
        have e1 : n / 1000 = n / 10 / 10 / 10 := by omega
        have e2 : n / 100 % 10 = n / 10 / 10 % 10 := by omega
        rw [digitsRev_large 19 n (by omega), digitsRev_large 18 (n / 10) (by omega),
          digitsRev_large 17 (n / 10 / 10) (by omega), digitsRev_small _ _ h2, e1, e2]
        rfl

theorem Format_eq_dateLabel (t : Time) (h0 : 0 ≤ t.Date.1) (h1 : t.Date.1 ≤ 9999) :
    t.Format = dateLabel t.Date.1.natAbs t.Date.2.1.natAbs t.Date.2.2.natAbs := by
  have hmd := civil_month_day ((t.unix + t.loc.lookup t.unix) / 86400)
  have hm : t.Date.2.1 = (civil ((t.unix + t.loc.lookup t.unix) / 86400)).2.1 := rfl
  have hd : t.Date.2.2 = (civil ((t.unix + t.loc.lookup t.unix) / 86400)).2.2 := rfl
  rw [← hm, ← hd] at hmd
  simp only [Time.Format, dateLabel]
  rw [appendInt_four _ h0 h1, appendInt_two _ (by omega) (by omega),
    appendInt_two _ (by omega) (by omega)]
  rfl

/-! ### The store operations -/

theorem Store.GetOrCreateDateCollection_spec (f : Faults) (s s1 : Store) (userId : Nat)
    (dateStr : String) (r : Except GoError AddressBookCollection)
    (h : Store.GetOrCreateDateCollection f s userId dateStr = (s1, r)) :
    s1.users = s.users ∧ s1.addressBooks = s.addressBooks ∧
    (∀ c ∈ s.collections, c ∈ s1.collections) ∧
    (s.collectionsUnique → s1.collectionsUnique) ∧
    (∀ c, r = .ok c → c ∈ s1.collections ∧ c.UserId = userId ∧ c.Name = dateStr) ∧
    (f.provision = Option.none → ∃ c, r = .ok c) := by
  unfold Store.GetOrCreateDateCollection at h
  cases hf : f.provision with
  | some err =>
    simp only [hf, Prod.mk.injEq] at h
    obtain ⟨rfl, rfl⟩ := h
    simp
  | none =>
    simp only [hf] at h
    cases hq : s.collections.find? (fun c => c.UserId = userId ∧ c.Name = dateStr) with
    | some c =>
      simp only [hq, Prod.mk.injEq] at h
      obtain ⟨rfl, rfl⟩ := h
      have hm := List.mem_of_find?_eq_some hq
      have hk := List.find?_some hq
      simp only [decide_eq_true_eq] at hk
      simp [hm, hk]
    | none =>
      simp only [hq, Prod.mk.injEq] at h
      obtain ⟨rfl, rfl⟩ := h
      have hno := List.find?_eq_none.mp hq
      simp only [decide_eq_true_eq] at hno
      refine ⟨rfl, rfl, ?_, ?_, ?_, ?_⟩
      · intro c hc; simp [hc]
      · intro hu
        unfold Store.collectionsUnique at hu ⊢
        simp only [List.pairwise_append, List.pairwise_cons, List.Pairwise.nil, and_true,
          List.mem_singleton]
        refine ⟨hu, ?_, ?_⟩
        · intro a ha; exact False.elim (List.not_mem_nil _ ha)
        · intro a ha b hb
          subst hb
          intro hk
          exact hno a ha ⟨hk.1, hk.2⟩
      · intro c hc
        simp only [Except.ok.injEq] at hc
        subst hc
        simp
      · intro _; exact ⟨_, rfl⟩

theorem Store.Create_spec (f : Faults) (s s2 : Store) (ab : AddressBook) (oerr : Option GoError)
    (h : Store.Create f s ab = (s2, oerr)) :
    s2.users = s.users ∧ s2.collections = s.collections ∧
    (∀ e, oerr = some e → s2 = s) ∧
    (oerr = Option.none → (∀ a ∈ s.addressBooks, ¬ (a.UserId = ab.UserId ∧ a.Id = ab.Id)) ∧
        s2.addressBooks = s.addressBooks ++ [{ ab with RowId := s.nextRowId }]) ∧
    (f.create = Option.none → (∀ a ∈ s.addressBooks, ¬ (a.UserId = ab.UserId ∧ a.Id = ab.Id)) →
      oerr = Option.none) ∧
    (f.create = Option.none → (∃ a ∈ s.addressBooks, a.UserId = ab.UserId ∧ a.Id = ab.Id) →
      oerr = some { kind := .conflict, msg := conflictMsg }) := by
  unfold Store.Create at h
  cases hf : f.create with
  | some err =>
    simp only [hf, Prod.mk.injEq] at h
    obtain ⟨rfl, rfl⟩ := h
    simp
  | none =>
    simp only [hf] at h
    by_cases hany : s.addressBooks.any (fun a => a.UserId = ab.UserId ∧ a.Id = ab.Id) = true
    · simp only [hany, if_true, Prod.mk.injEq] at h
      obtain ⟨rfl, rfl⟩ := h
      simp only [List.any_eq_true, decide_eq_true_eq] at hany
      refine ⟨rfl, rfl, fun _ _ => rfl, ?_, ?_, ?_⟩
      · intro hn; simp at hn
      · intro _ hno
        obtain ⟨a, ha, hk⟩ := hany
        exact absurd hk (hno a ha)
      · intro _ _; rfl
    · simp only [hany, Prod.mk.injEq] at h
      obtain ⟨rfl, rfl⟩ := h
      simp only [List.any_eq_true, decide_eq_true_eq, not_exists, not_and] at hany
      refine ⟨rfl, rfl, ?_, ?_, ?_, ?_⟩
      · intro e he; simp at he
      · intro _; exact ⟨fun a ha hk => hany a ha hk.1 hk.2, rfl⟩
      · intro _ _; rfl
      · intro _ ⟨a, ha, hk⟩
        exact absurd hk.2 (hany a ha hk.1)

/-! ### Sequences of runs: the collection table stays keyed uniquely -/

theorem run_keeps_collections (r : Report) (s : Store) (hu : s.collectionsUnique) :
    (FirstInstallReport (storeServices r.faults) r.env r.bind s).state.collectionsUnique ∧
    (∀ c ∈ s.collections,
      c ∈ (FirstInstallReport (storeServices r.faults) r.env r.bind s).state.collections) ∧
    (∀ a ∈ s.addressBooks,
      a ∈ (FirstInstallReport (storeServices r.faults) r.env r.bind s).state.addressBooks) ∧
    (∀ e, registered (FirstInstallReport (storeServices r.faults) r.env r.bind s) = some e →
      (∃ c ∈ (FirstInstallReport (storeServices r.faults) r.env r.bind s).state.collections,
        c.UserId = e.2.UserId ∧ c.Name = e.1 ∧ c.Id = e.2.CollectionId) ∧
      (∃ a ∈ (FirstInstallReport (storeServices r.faults) r.env r.bind s).state.addressBooks,
        a = { e.2 with RowId := a.RowId })) := by
  rcases FirstInstallReport_cases (storeServices r.faults) r.env r.bind s with
    ⟨hs, _, _, hr⟩ | ⟨form, loc, s1, err, _, _, hp, hs, _, hr⟩ |
    ⟨form, loc, s1, c, s2, oerr, _, _, hp, hc, hs, _, hr⟩
  · rw [hs, hr]
    exact ⟨hu, fun _ h => h, fun _ h => h, fun e he => by simp at he⟩
  · have hg := Store.GetOrCreateDateCollection_spec r.faults s s1 _ _ _ hp
    rw [hs, hr]
    refine ⟨hg.2.2.2.1 hu, hg.2.2.1, ?_, fun e he => by simp at he⟩
    rw [hg.2.1]; exact fun _ h => h
  · have hg := Store.GetOrCreateDateCollection_spec r.faults s s1 _ _ _ hp
    have hk := Store.Create_spec r.faults s1 s2 _ _ hc
    obtain ⟨hcm, hcu, hcn⟩ := hg.2.2.2.2.1 c rfl
    rw [hs, hr]
    have hcoll : s2.collections = s1.collections := hk.2.1
    refine ⟨?_, ?_, ?_, ?_⟩
    · unfold Store.collectionsUnique; rw [hcoll]; exact hg.2.2.2.1 hu
    · rw [hcoll]; exact hg.2.2.1
    · intro a ha
      rw [← hg.2.1] at ha
      cases oerr with
      | none => rw [(hk.2.2.2.1 rfl).2]; simp [ha]
      | some e => rw [hk.2.2.1 e rfl]; exact ha
    · intro e he
      cases oerr with
      | some e0 => simp at he
      | none =>
        simp only [if_true, Option.some.injEq] at he
        subst he
        refine ⟨⟨c, ?_, ?_, ?_, ?_⟩, ?_⟩
        · rw [hcoll]; exact hcm
        · simpa [firstInstallEntry] using hcu
        · simpa using hcn
        · simp [firstInstallEntry]
        · refine ⟨{ firstInstallEntry form c.Id with RowId := s1.nextRowId }, ?_, ?_⟩
          · rw [(hk.2.2.2.1 rfl).2]; simp
          · simp

theorem runAll_invariant (reports : List Report) :
    ∀ s : Store, s.collectionsUnique →
      (runAll reports s).1.collectionsUnique ∧
      (∀ c ∈ s.collections, c ∈ (runAll reports s).1.collections) ∧
      (∀ a ∈ s.addressBooks, a ∈ (runAll reports s).1.addressBooks) ∧
      (∀ e ∈ (runAll reports s).2,
        (∃ c ∈ (runAll reports s).1.collections,
          c.UserId = e.2.UserId ∧ c.Name = e.1 ∧ c.Id = e.2.CollectionId) ∧
        (∃ a ∈ (runAll reports s).1.addressBooks, a = { e.2 with RowId := a.RowId })) := by
  induction reports with
  | nil =>
    intro s hu
    exact ⟨hu, fun _ h => h, fun _ h => h, fun e he => by simp [runAll] at he⟩
  | cons r rest ih =>
    intro s hu
    obtain ⟨h1, h2, h3, h4⟩ := run_keeps_collections r s hu
    obtain ⟨i1, i2, i3, i4⟩ := ih _ h1
    simp only [runAll]
    refine ⟨i1, fun c hc => i2 c (h2 c hc), fun a ha => i3 a (h3 a ha), ?_⟩
    intro e he
    rw [List.mem_append] at he
    rcases he with he | he
    · have he' : registered (FirstInstallReport (storeServices r.faults) r.env r.bind s)
          = some e := by
        cases hreg : registered (FirstInstallReport (storeServices r.faults) r.env r.bind s) with
        | none => rw [hreg] at he; simp at he
        | some x => rw [hreg] at he; simp at he; rw [he]
      obtain ⟨⟨c, hc, hk⟩, ⟨a, ha, hka⟩⟩ := h4 e he'
      exact ⟨⟨c, i2 c hc, hk⟩, ⟨a, i3 a ha, hka⟩⟩
    · exact i4 e he

theorem same_key_eq {α : Type} (l : List α) (key : α → α → Prop) (hs : Symmetric key)
    (hp : l.Pairwise (fun a b => ¬ key a b)) (a b : α) (ha : a ∈ l) (hb : b ∈ l)
    (hk : key a b) : a = b := by
  by_contra hne
  have hsym : Symmetric (fun a b => ¬ key a b) := fun x y hxy hyx => hxy (hs hyx)
  exact List.Pairwise.forall hsym hp ha hb hne hk

/-- C5. Collection uniqueness: after any sequence of requests handled one after
the other on a store that starts with empty tables, no two collections share
an `(owning user id, date label)` pair; any two registrations completed under
the same target user id and the same date label carry the same
`CollectionId`; and every completed registration is a stored row. -/
theorem collection_uniqueness (users : List User) (reports : List Report) :
    (runAll reports (Store.init users)).1.collections.Pairwise
        (fun a b => ¬ (a.UserId = b.UserId ∧ a.Name = b.Name)) ∧
    (∀ e1 ∈ (runAll reports (Store.init users)).2, ∀ e2 ∈ (runAll reports (Store.init users)).2,
      e1.2.UserId = e2.2.UserId → e1.1 = e2.1 → e1.2.CollectionId = e2.2.CollectionId) ∧
    (∀ e ∈ (runAll reports (Store.init users)).2,
      ∃ a ∈ (runAll reports (Store.init users)).1.addressBooks,
        a = { e.2 with RowId := a.RowId }) := by
  have h0 : (Store.init users).collectionsUnique := by
    simp [Store.collectionsUnique, Store.init]
  obtain ⟨h1, _, _, h4⟩ := runAll_invariant reports (Store.init users) h0
  refine ⟨h1, ?_, fun e he => (h4 e he).2⟩
  intro e1 he1 e2 he2 hu hd
  obtain ⟨c1, hc1, hk1⟩ := (h4 e1 he1).1
  obtain ⟨c2, hc2, hk2⟩ := (h4 e2 he2).1
  have hsym : Symmetric (fun a b : AddressBookCollection =>
      a.UserId = b.UserId ∧ a.Name = b.Name) := fun x y h => ⟨h.1.symm, h.2.symm⟩
  have heq : c1 = c2 := same_key_eq _ _ hsym h1 c1 c2 hc1 hc2
    ⟨by rw [hk1.1, hk2.1, hu], by rw [hk1.2.1, hk2.2.1, hd]⟩
  rw [← hk1.2.2, ← hk2.2.2, heq]

/-! ### Lookups on the store -/

theorem Store.InfoById_of_mem (s : Store) (u : User) (hu : u ∈ s.users) :
    (s.InfoById u.Id).Id = u.Id := by
  unfold Store.InfoById
  cases hq : s.users.find? (fun v => v.Id = u.Id) with
  | none =>
    have := List.find?_eq_none.mp hq u hu
    simp at this
  | some v =>
    have := List.find?_some hq
    simpa using this

theorem Store.InfoByUserIdAndId_absent (s : Store) (userId : Nat) (id : String)
    (h : ∀ a ∈ s.addressBooks, ¬ (a.UserId = userId ∧ a.Id = id)) :
    (s.InfoByUserIdAndId userId id).RowId = 0 := by
  unfold Store.InfoByUserIdAndId
  have : s.addressBooks.find? (fun a => a.UserId = userId ∧ a.Id = id) = Option.none := by
    rw [List.find?_eq_none]
    intro a ha
    simpa using h a ha
  rw [this]; rfl

theorem Store.InfoByUserIdAndId_present (s : Store) (userId : Nat) (id : String)
    (hpos : ∀ a ∈ s.addressBooks, 0 < a.RowId)
    (h : ∃ a ∈ s.addressBooks, a.UserId = userId ∧ a.Id = id) :
    0 < (s.InfoByUserIdAndId userId id).RowId := by
  unfold Store.InfoByUserIdAndId
  cases hq : s.addressBooks.find? (fun a => a.UserId = userId ∧ a.Id = id) with
  | none =>
    obtain ⟨a, ha, hk⟩ := h
    have := List.find?_eq_none.mp hq a ha
    simp [hk] at this
  | some b => exact hpos b (List.mem_of_find?_eq_some hq)

theorem Store.InfoByUserIdAndId_found (s : Store) (userId : Nat) (id : String)
    (h : 0 < (s.InfoByUserIdAndId userId id).RowId) :
    ∃ a ∈ s.addressBooks, a.UserId = userId ∧ a.Id = id := by
  unfold Store.InfoByUserIdAndId at h
  cases hq : s.addressBooks.find? (fun a => a.UserId = userId ∧ a.Id = id) with
  | none => rw [hq] at h; simp at h
  | some b =>
    have hk := List.find?_some hq
    simp only [decide_eq_true_eq] at hk
    exact ⟨b, List.mem_of_find?_eq_some hq, hk⟩

/-! ### Counting the entries of a key -/

theorem filter_length_absent {α : Type} (l : List α) (p : α → Bool)
    (h : ∀ a ∈ l, p a = false) : (l.filter p).length = 0 := by
  rw [List.length_eq_zero, List.filter_eq_nil_iff]
  intro a ha
  simp [h a ha]

theorem filter_length_unique {α : Type} (l : List α) (p : α → Bool)
    (hp : l.Pairwise (fun a b => ¬ (p a = true ∧ p b = true)))
    (h : ∃ a ∈ l, p a = true) : (l.filter p).length = 1 := by
  induction l with
  | nil => obtain ⟨a, ha, _⟩ := h; simp at ha
  | cons x xs ih =>
    rw [List.pairwise_cons] at hp
    by_cases hx : p x = true
    · have hrest : ∀ a ∈ xs, p a = false := by
        intro a ha
        have := hp.1 a ha
        simp only [hx, true_and] at this
        simpa using this
      rw [List.filter_cons_of_pos hx, List.length_cons, filter_length_absent xs p hrest]
    · obtain ⟨a, ha, hpa⟩ := h
      rw [List.mem_cons] at ha
      rcases ha with rfl | ha
      · exact absurd hpa hx
      · rw [List.filter_cons_of_neg hx]
        exact ih hp.2 ⟨a, ha, hpa⟩

theorem Store.entryCount_absent (s : Store) (userId : Nat) (id : String)
    (h : ∀ a ∈ s.addressBooks, ¬ (a.UserId = userId ∧ a.Id = id)) :
    s.entryCount userId id = 0 := by
  unfold Store.entryCount
  apply filter_length_absent
  intro a ha
  simpa using h a ha

theorem Store.entryCount_present (s : Store) (userId : Nat) (id : String) (hwf : s.WF)
    (h : ∃ a ∈ s.addressBooks, a.UserId = userId ∧ a.Id = id) :
    s.entryCount userId id = 1 := by
  unfold Store.entryCount
  apply filter_length_unique
  · refine List.Pairwise.imp ?_ hwf.2
    intro a b hab hk
    simp only [decide_eq_true_eq] at hk
    exact hab ⟨hk.1.1.trans hk.2.1.symm, hk.1.2.trans hk.2.2.symm⟩
  · obtain ⟨a, ha, hk⟩ := h
    exact ⟨a, ha, by simpa using hk⟩

theorem Store.nextRowId_pos (s : Store) : 0 < s.nextRowId := by
  unfold Store.nextRowId; omega

/-- Appending a fresh row under a key that is not yet stored keeps the table
well formed. -/
theorem Store.WF_insert (s s2 : Store) (ab : AddressBook) (hwf : s.WF)
    (hno : ∀ a ∈ s.addressBooks, ¬ (a.UserId = ab.UserId ∧ a.Id = ab.Id))
    (h2 : s2.addressBooks = s.addressBooks ++ [{ ab with RowId := s.nextRowId }]) : s2.WF := by
  unfold Store.WF
  rw [h2]
  refine ⟨?_, ?_⟩
  · intro a ha
    rw [List.mem_append, List.mem_singleton] at ha
    rcases ha with ha | rfl
    · exact hwf.1 a ha
    · exact s.nextRowId_pos
  · rw [List.pairwise_append]
    refine ⟨hwf.2, List.pairwise_singleton _ _, ?_⟩
    intro a ha b hb
    rw [List.mem_singleton] at hb
    subst hb
    exact hno a ha

theorem FirstInstallReport_existing {σ : Type} (svc : Services σ) (env : Env)
    (form : FirstInstallReportForm) (s : σ)
    (hc : form.ClientId ≠ "") (hu : form.TargetUserId ≠ 0)
    (huser : (svc.InfoById s form.TargetUserId).Id ≠ 0)
    (hex : 0 < (svc.InfoByUserIdAndId s form.TargetUserId form.ClientId).RowId) :
    FirstInstallReport svc env (.ok form) s =
      { outcome := .responded (.Success (env.TranslateMsg "DeviceAlreadyExists" [])),
        state := s,
        calls := [.InfoById form.TargetUserId,
                  .InfoByUserIdAndId form.TargetUserId form.ClientId] } := by
  simp [FirstInstallReport, ValidStruct_eq_nil env form hc hu, huser, hex]

/-- Idempotence where the zone database has `Asia/Shanghai`: on a well-formed
store that holds the target user, with no persistence fault, two runs in
sequence for the same `(target user id, client id)` both return success;
afterwards exactly one entry with that key is stored; the second run answers
"already exists", leaves the store as the first run left it, and makes the
two lookups only (no provisioning, no insert). -/
theorem FirstInstallReport_idempotent (env1 env2 : Env) (form1 form2 : FirstInstallReportForm)
    (s : Store) (loc : Location) (u : User) (r1 r2 : Result Store)
    (hwf : s.WF)
    (hc : form1.ClientId ≠ "") (hu : form1.TargetUserId ≠ 0)
    (hsame : form2.ClientId = form1.ClientId ∧ form2.TargetUserId = form1.TargetUserId)
    (huser : u ∈ s.users ∧ u.Id = form1.TargetUserId)
    (hloc : env1.LoadLocation "Asia/Shanghai" = some loc)
    (h1 : r1 = FirstInstallReport (storeServices Faults.none) env1 (.ok form1) s)
    (h2 : r2 = FirstInstallReport (storeServices Faults.none) env2 (.ok form2) r1.state) :
    (∃ d, r1.outcome = .responded (.Success d)) ∧
    r2.outcome = .responded (.Success (env2.TranslateMsg "DeviceAlreadyExists" [])) ∧
    r2.state.entryCount form1.TargetUserId form1.ClientId = 1 ∧
    r2.state = r1.state ∧
    r2.calls = [.InfoById form1.TargetUserId,
                .InfoByUserIdAndId form1.TargetUserId form1.ClientId] := by
  obtain ⟨hsc, hsu⟩ := hsame
  obtain ⟨hum, huid⟩ := huser
  have hc2 : form2.ClientId ≠ "" := by rw [hsc]; exact hc
  have hu2 : form2.TargetUserId ≠ 0 := by rw [hsu]; exact hu
  -- the second run on any well-formed store that holds the entry
  have second : ∀ s' : Store, s'.WF → s'.users = s.users →
      (∃ a ∈ s'.addressBooks, a.UserId = form1.TargetUserId ∧ a.Id = form1.ClientId) →
      FirstInstallReport (storeServices Faults.none) env2 (.ok form2) s' =
        { outcome := .responded (.Success (env2.TranslateMsg "DeviceAlreadyExists" [])),
          state := s',
          calls := [.InfoById form1.TargetUserId,
                    .InfoByUserIdAndId form1.TargetUserId form1.ClientId] } ∧
      s'.entryCount form1.TargetUserId form1.ClientId = 1 := by
    intro s' hwf' husers hex
    have hum' : u ∈ s'.users := by rw [husers]; exact hum
    have e := FirstInstallReport_existing (storeServices Faults.none) env2 form2 s' hc2 hu2
      (by
        show (s'.InfoById form2.TargetUserId).Id ≠ 0
        rw [hsu, ← huid, Store.InfoById_of_mem s' u hum', huid]; exact hu)
      (by
        show 0 < (s'.InfoByUserIdAndId form2.TargetUserId form2.ClientId).RowId
        rw [hsu, hsc]
        exact Store.InfoByUserIdAndId_present s' _ _ hwf'.1 hex)
    rw [hsu, hsc] at e
    exact ⟨e, Store.entryCount_present s' _ _ hwf' hex⟩
  have huser1 : ((storeServices Faults.none).InfoById s form1.TargetUserId).Id ≠ 0 := by
    show (s.InfoById form1.TargetUserId).Id ≠ 0
    rw [← huid, Store.InfoById_of_mem s u hum, huid]; exact hu
  by_cases hex : 0 < (s.InfoByUserIdAndId form1.TargetUserId form1.ClientId).RowId
  · have e1 := FirstInstallReport_existing (storeServices Faults.none) env1 form1 s hc hu
      huser1 hex
    rw [e1] at h1
    subst h1
    obtain ⟨e2, hcount⟩ := second s hwf rfl (Store.InfoByUserIdAndId_found s _ _ hex)
    simp only at h2
    rw [e2] at h2
    subst h2
    exact ⟨⟨_, rfl⟩, rfl, hcount, rfl, rfl⟩
  · have hnew : (s.InfoByUserIdAndId form1.TargetUserId form1.ClientId).RowId = 0 := by omega
    have hno : ∀ a ∈ s.addressBooks,
        ¬ (a.UserId = form1.TargetUserId ∧ a.Id = form1.ClientId) := by
      intro a ha hk
      exact hex (Store.InfoByUserIdAndId_present s _ _ hwf.1 ⟨a, ha, hk⟩)
    rcases hp : Store.GetOrCreateDateCollection Faults.none s form1.TargetUserId
      (In env1.Now loc).Format with ⟨s1, r⟩
    have hg := Store.GetOrCreateDateCollection_spec Faults.none s s1 _ _ _ hp
    obtain ⟨c, rfl⟩ := hg.2.2.2.2.2 rfl
    rcases hcr : Store.Create Faults.none s1 (firstInstallEntry form1 c.Id) with ⟨s2, oerr⟩
    have hk := Store.Create_spec Faults.none s1 s2 _ _ hcr
    have hno1 : ∀ a ∈ s1.addressBooks, ¬ (a.UserId = (firstInstallEntry form1 c.Id).UserId ∧
        a.Id = (firstInstallEntry form1 c.Id).Id) := by
      rw [hg.2.1]; exact hno
    have hnone : oerr = Option.none := hk.2.2.2.2.1 rfl hno1
    subst hnone
    have happ := (hk.2.2.2.1 rfl).2
    have hwf1 : s1.WF := by unfold Store.WF; rw [hg.2.1]; exact hwf
    have hwf2 : s2.WF := Store.WF_insert s1 s2 _ hwf1 hno1 happ
    have e1 := FirstInstallReport_created (storeServices Faults.none) env1 form1 s s1 s2 loc c
      hc hu huser1 hnew hloc hp hcr
    have hst : r1.state = s2 ∧ ∃ d, r1.outcome = .responded (.Success d) := by
      rw [h1, e1]
      exact ⟨rfl, _, rfl⟩
    obtain ⟨hs2, hout⟩ := hst
    have hex2 : ∃ a ∈ s2.addressBooks,
        a.UserId = form1.TargetUserId ∧ a.Id = form1.ClientId := by
      refine ⟨{ firstInstallEntry form1 c.Id with RowId := s1.nextRowId }, ?_, rfl, rfl⟩
      rw [happ]; simp
    obtain ⟨e2, hcount⟩ := second s2 hwf2 (hk.1.trans hg.1) hex2
    rw [hs2, e2] at h2
    subst h2
    exact ⟨hout, rfl, hcount, hs2.symm, rfl⟩

/-- The sample report sent twice, an hour apart, where the zone is known. -/
theorem FirstInstallReport_idempotent_witness :
    (∃ d, (FirstInstallReport (storeServices Faults.none) (sampleEnv 1704067200)
        (.ok sampleForm) sampleStore).outcome = .responded (.Success d)) ∧
    (FirstInstallReport (storeServices Faults.none) (sampleEnv 1704070800) (.ok sampleForm)
        (FirstInstallReport (storeServices Faults.none) (sampleEnv 1704067200)
          (.ok sampleForm) sampleStore).state).outcome
      = .responded (.Success "DeviceAlreadyExists") ∧
    (FirstInstallReport (storeServices Faults.none) (sampleEnv 1704070800) (.ok sampleForm)
        (FirstInstallReport (storeServices Faults.none) (sampleEnv 1704067200)
          (.ok sampleForm) sampleStore).state).state.entryCount 42 "dev-1" = 1 :=
  have h := FirstInstallReport_idempotent (sampleEnv 1704067200) (sampleEnv 1704070800)
    sampleForm sampleForm sampleStore { name := "Asia/Shanghai", lookup := fun _ => 28800 }
    { Id := 42 }
    (FirstInstallReport (storeServices Faults.none) (sampleEnv 1704067200)
        (.ok sampleForm) sampleStore)
    (FirstInstallReport (storeServices Faults.none) (sampleEnv 1704070800) (.ok sampleForm)
        (FirstInstallReport (storeServices Faults.none) (sampleEnv 1704067200)
          (.ok sampleForm) sampleStore).state)
    (by decide) (by decide) (by decide) ⟨rfl, rfl⟩ ⟨by decide, rfl⟩ rfl rfl rfl
  ⟨h.1, h.2.1, h.2.2.1⟩

/-- C1, failing input. On a host whose zone database lacks `Asia/Shanghai`, the
valid sample report for the stored user 42, sent twice to the well-formed
sample store with no persistence fault: the first run panics in `Time.In`
instead of returning success, the second run panics the same way, and no
entry for the key is stored afterwards. -/
theorem idempotence_fails_without_zone_database :
    sampleStore.WF ∧
    (FirstInstallReport (storeServices Faults.none) (noZonesEnv 1704067200)
        (.ok sampleForm) sampleStore).outcome
      = .panicked "time: missing Location in call to Time.In" ∧
    (FirstInstallReport (storeServices Faults.none) (noZonesEnv 1704070800) (.ok sampleForm)
        (FirstInstallReport (storeServices Faults.none) (noZonesEnv 1704067200)
          (.ok sampleForm) sampleStore).state).outcome
      = .panicked "time: missing Location in call to Time.In" ∧
    (FirstInstallReport (storeServices Faults.none) (noZonesEnv 1704070800) (.ok sampleForm)
        (FirstInstallReport (storeServices Faults.none) (noZonesEnv 1704067200)
          (.ok sampleForm) sampleStore).state).state.entryCount 42 "dev-1" = 0 := by
  decide

/-! ### The handler cut at its service calls -/

/-- Four uninterrupted steps are one run of the handler. -/
theorem steps_eq_FirstInstallReport {σ : Type} (svc : Services σ) (env : Env)
    (bind : Except String FirstInstallReportForm) (s : σ) :
    steps svc env bind 4 (Thread.init, s) =
      ({ pc := .done (FirstInstallReport svc env bind s).outcome,
         calls := (FirstInstallReport svc env bind s).calls },
       (FirstInstallReport svc env bind s).state) := by
  cases bind with
  | error err => simp [steps, step, Thread.init, FirstInstallReport]
  | ok form =>
    cases hv : ValidStruct env form with
    | cons e rest => simp [steps, step, Thread.init, FirstInstallReport, hv]
    | nil =>
      by_cases hu : (svc.InfoById s form.TargetUserId).Id = 0
      · simp [steps, step, Thread.init, FirstInstallReport, hv, hu]
      · by_cases he : (svc.InfoByUserIdAndId s form.TargetUserId form.ClientId).RowId > 0
        · simp [steps, step, Thread.init, FirstInstallReport, hv, hu, he]
        · cases hl : env.LoadLocation "Asia/Shanghai" with
          | none => simp [steps, step, Thread.init, FirstInstallReport, hv, hu, he, hl]
          | some loc =>
            rcases hp : svc.GetOrCreateDateCollection s form.TargetUserId
              (In env.Now loc).Format with ⟨s1, r⟩
            cases r with
            | error err =>
              simp [steps, step, Thread.init, FirstInstallReport, hv, hu, he, hl, hp]
            | ok c =>
              rcases hc : svc.Create s1 (firstInstallEntry form c.Id) with ⟨s2, oerr⟩
              have hc' := hc
              rw [firstInstallEntry] at hc'
              cases oerr with
              | none =>
                simp [steps, step, Thread.init, FirstInstallReport, hv, hu, he, hl, hp, hc, hc',
                  firstInstallEntry]
              | some err =>
                simp [steps, step, Thread.init, FirstInstallReport, hv, hu, he, hl, hp, hc, hc',
                  firstInstallEntry]

/-! ### Counting entries across steps -/

theorem Store.entryCount_congr (s s1 : Store) (h : s1.addressBooks = s.addressBooks)
    (userId : Nat) (id : String) : s1.entryCount userId id = s.entryCount userId id := by
  unfold Store.entryCount; rw [h]

theorem Store.entryCount_le_one (s : Store) (hwf : s.WF) (userId : Nat) (id : String) :
    s.entryCount userId id ≤ 1 := by
  by_cases h : ∃ a ∈ s.addressBooks, a.UserId = userId ∧ a.Id = id
  · rw [Store.entryCount_present s _ _ hwf h]
  · rw [Store.entryCount_absent s _ _ (by
      intro a ha hk; exact h ⟨a, ha, hk⟩)]
    omega

theorem Store.exists_of_entryCount (s : Store) (userId : Nat) (id : String)
    (h : s.entryCount userId id = 1) :
    ∃ a ∈ s.addressBooks, a.UserId = userId ∧ a.Id = id := by
  by_contra hno
  rw [Store.entryCount_absent s _ _ (by
    intro a ha hk; exact hno ⟨a, ha, hk⟩)] at h
  omega

/-- Every step brings a run closer to its return. -/
theorem step_rank {σ : Type} (svc : Services σ) (env : Env)
    (bind : Except String FirstInstallReportForm) (t : Thread) (s : σ) :
    (step svc env bind t s).1.pc.rank ≤ t.pc.rank - 1 := by
  obtain ⟨pc, calls⟩ := t
  cases pc with
  | start =>
    cases bind with
    | error err => simp [step, Pc.rank]
    | ok form =>
      cases hv : ValidStruct env form with
      | cons e rest => simp [step, hv, Pc.rank]
      | nil =>
        by_cases hu : (svc.InfoById s form.TargetUserId).Id = 0
        · simp [step, hv, hu, Pc.rank]
        · simp [step, hv, hu, Pc.rank]
  | resolved form =>
    by_cases he : (svc.InfoByUserIdAndId s form.TargetUserId form.ClientId).RowId > 0
    · simp [step, he, Pc.rank]
    · simp only [step, he, if_false, Pc.rank]; omega
  | absent form =>
    cases hl : env.LoadLocation "Asia/Shanghai" with
    | none => simp [step, hl, Pc.rank]
    | some loc =>
      rcases hp : svc.GetOrCreateDateCollection s form.TargetUserId (In env.Now loc).Format
        with ⟨s1, r⟩
      cases r with
      | error err => simp [step, hl, hp, Pc.rank]
      | ok c => simp [step, hl, hp, Pc.rank]
  | provisioned form c =>
    rcases hc : svc.Create s (firstInstallEntry form c.Id) with ⟨s2, oerr⟩
    cases oerr with
    | none => simp [step, hc, Pc.rank]
    | some err => simp [step, hc, Pc.rank]
  | done o => simp [step, Pc.rank]

theorem Pc.done_of_rank (pc : Pc) (h : pc.rank = 0) : ∃ o, pc = .done o := by
  cases pc with
  | done o => exact ⟨o, rfl⟩
  | start => simp [Pc.rank] at h
  | resolved f => simp [Pc.rank] at h
  | absent f => simp [Pc.rank] at h
  | provisioned f c => simp [Pc.rank] at h

/-- After a schedule each run has come closer to its return by the number of
steps the schedule gave it. -/
theorem interleave_rank (ra rb : Report) (sched : List Bool) :
    ∀ st : Race,
      (interleave ra rb sched st).a.pc.rank ≤ st.a.pc.rank - sched.count true ∧
      (interleave ra rb sched st).b.pc.rank ≤ st.b.pc.rank - sched.count false := by
  induction sched with
  | nil => intro st; simp [interleave]
  | cons x rest ih =>
    intro st
    cases x with
    | true =>
      have hs := step_rank (storeServices ra.faults) ra.env ra.bind st.a st.store
      have h := ih { a := (step (storeServices ra.faults) ra.env ra.bind st.a st.store).1,
                     b := st.b,
                     store := (step (storeServices ra.faults) ra.env ra.bind st.a st.store).2 }
      have c1 : (true :: rest).count true = rest.count true + 1 := by simp
      have c2 : (true :: rest).count false = rest.count false := by simp
      simp only [interleave, c1, c2]
      simp only at h
      omega
    | false =>
      have hs := step_rank (storeServices rb.faults) rb.env rb.bind st.b st.store
      have h := ih { a := st.a,
                     b := (step (storeServices rb.faults) rb.env rb.bind st.b st.store).1,
                     store := (step (storeServices rb.faults) rb.env rb.bind st.b st.store).2 }
      have c1 : (false :: rest).count true = rest.count true := by simp
      have c2 : (false :: rest).count false = rest.count false + 1 := by simp
      simp only [interleave, c1, c2]
      simp only at h
      omega

/-- A schedule that gives each run four steps lets both return. -/
theorem interleave_done (ra rb : Report) (sched : List Bool) (s : Store)
    (ha : 4 ≤ sched.count true) (hb : 4 ≤ sched.count false) :
    (∃ oa, (interleave ra rb sched (Race.init s)).a.pc = .done oa) ∧
    (∃ ob, (interleave ra rb sched (Race.init s)).b.pc = .done ob) := by
  obtain ⟨h1, h2⟩ := interleave_rank ra rb sched (Race.init s)
  have r1 : (Race.init s).a.pc.rank = 4 := rfl
  have r2 : (Race.init s).b.pc.rank = 4 := rfl
  exact ⟨Pc.done_of_rank _ (by omega), Pc.done_of_rank _ (by omega)⟩

/-! ### Races: one step of one run -/

theorem createdEntries_append (l m : List Call) :
    createdEntries (l ++ m) = createdEntries l ++ createdEntries m := by
  induction l with
  | nil => rfl
  | cons c rest ih => cases c <;> simp [createdEntries, ih]

theorem Store.absent_of_entryCount (s : Store) (userId : Nat) (id : String)
    (h : s.entryCount userId id = 0) :
    ∀ a ∈ s.addressBooks, ¬ (a.UserId = userId ∧ a.Id = id) := by
  intro a ha hk
  unfold Store.entryCount at h
  rw [List.length_eq_zero, List.filter_eq_nil_iff] at h
  exact h a ha (by simpa using hk)

/-- A step of a run that has returned changes nothing. -/
theorem step_done {σ : Type} (svc : Services σ) (env : Env)
    (bind : Except String FirstInstallReportForm) (t : Thread) (s : σ) (o : Outcome)
    (h : t.pc = .done o) : step svc env bind t s = (t, s) := by
  obtain ⟨pc, calls⟩ := t
  simp only at h
  subst h
  rfl

/-- A step before the insert, on a store that does not hold the entry: the run
moves one position on and the device-entry table is untouched. -/
theorem step_before (env : Env) (form : FirstInstallReportForm) (loc : Location) (u : User)
    (t : Thread) (s : Store) (k : Nat)
    (hc : form.ClientId ≠ "") (hu : form.TargetUserId ≠ 0)
    (hloc : env.LoadLocation "Asia/Shanghai" = some loc)
    (hum : u ∈ s.users) (huid : u.Id = form.TargetUserId)
    (hcount : s.entryCount form.TargetUserId form.ClientId = 0)
    (hk : k ≤ 2) (hb : t.before form k) :
    (step (storeServices Faults.none) env (.ok form) t s).1.before form (k + 1) ∧
    (step (storeServices Faults.none) env (.ok form) t s).2.users = s.users ∧
    (step (storeServices Faults.none) env (.ok form) t s).2.addressBooks = s.addressBooks := by
  have huser : ((storeServices Faults.none).InfoById s form.TargetUserId).Id ≠ 0 := by
    show (s.InfoById form.TargetUserId).Id ≠ 0
    rw [← huid, Store.InfoById_of_mem s u hum, huid]; exact hu
  obtain ⟨pc, calls⟩ := t
  obtain ⟨hcalls, hpos⟩ := hb
  simp only at hcalls hpos
  rcases hpos with ⟨rfl, rfl⟩ | ⟨rfl, rfl⟩ | ⟨rfl, rfl⟩ | ⟨rfl, _⟩
  · have e : step (storeServices Faults.none) env (.ok form) { pc := .start, calls := calls } s
        = ({ pc := .resolved form, calls := calls ++ [.InfoById form.TargetUserId] }, s) := by
      simp [step, ValidStruct_eq_nil env form hc hu, huser]
    rw [e]
    refine ⟨⟨?_, Or.inr (Or.inl ⟨rfl, rfl⟩)⟩, rfl, rfl⟩
    simp [createdEntries_append, hcalls, createdEntries]
  · have hnew : ¬ 0 < ((storeServices Faults.none).InfoByUserIdAndId s form.TargetUserId
        form.ClientId).RowId := by
      show ¬ 0 < (s.InfoByUserIdAndId form.TargetUserId form.ClientId).RowId
      rw [Store.InfoByUserIdAndId_absent s _ _ (Store.absent_of_entryCount s _ _ hcount)]
      omega
    have e : step (storeServices Faults.none) env (.ok form)
        { pc := .resolved form, calls := calls } s
        = ({ pc := .absent form,
             calls := calls ++ [.InfoByUserIdAndId form.TargetUserId form.ClientId] }, s) := by
      simp only [step, gt_iff_lt, hnew, if_false]
    rw [e]
    refine ⟨⟨?_, Or.inr (Or.inr (Or.inl ⟨rfl, rfl⟩))⟩, rfl, rfl⟩
    simp [createdEntries_append, hcalls, createdEntries]
  · rcases hp : Store.GetOrCreateDateCollection Faults.none s form.TargetUserId
      (In env.Now loc).Format with ⟨s1, r⟩
    have hg := Store.GetOrCreateDateCollection_spec Faults.none s s1 _ _ _ hp
    obtain ⟨c, rfl⟩ := hg.2.2.2.2.2 rfl
    have hp2 : (storeServices Faults.none).GetOrCreateDateCollection s form.TargetUserId
      (In env.Now loc).Format = (s1, .ok c) := hp
    have e : step (storeServices Faults.none) env (.ok form)
        { pc := .absent form, calls := calls } s
        = ({ pc := .provisioned form c,
             calls := calls ++
               [.GetOrCreateDateCollection form.TargetUserId (In env.Now loc).Format] },
           s1) := by
      simp only [step, hloc, hp2]
    rw [e]
    refine ⟨⟨?_, Or.inr (Or.inr (Or.inr ⟨rfl, c, rfl⟩))⟩, hg.1, hg.2.1⟩
    simp [createdEntries_append, hcalls, createdEntries]
  · omega

/-- The insert of the first run to reach it: the entry is stored and the run
answers "added". -/
theorem step_insert (env : Env) (form : FirstInstallReportForm) (t : Thread) (s : Store)
    (hwf : s.WF) (hcount : s.entryCount form.TargetUserId form.ClientId = 0)
    (hb : t.before form 3) :
    (step (storeServices Faults.none) env (.ok form) t s).1.won env form ∧
    (step (storeServices Faults.none) env (.ok form) t s).2.WF ∧
    (step (storeServices Faults.none) env (.ok form) t s).2.users = s.users ∧
    (step (storeServices Faults.none) env (.ok form) t s).2.entryCount
      form.TargetUserId form.ClientId = 1 ∧
    ∃ a ∈ (step (storeServices Faults.none) env (.ok form) t s).2.addressBooks,
      a.UserId = form.TargetUserId ∧ a.Id = form.ClientId ∧
      a.Hostname = form.Hostname ∧ a.Platform = form.Platform := by
  obtain ⟨pc, calls⟩ := t
  obtain ⟨hcalls, hpos⟩ := hb
  simp only at hcalls hpos
  rcases hpos with ⟨h, _⟩ | ⟨h, _⟩ | ⟨h, _⟩ | ⟨_, c, rfl⟩
  · omega
  · omega
  · omega
  · rcases hcr : Store.Create Faults.none s (firstInstallEntry form c.Id) with ⟨s2, oerr⟩
    have hk := Store.Create_spec Faults.none s s2 _ _ hcr
    have hcr2 : (storeServices Faults.none).Create s (firstInstallEntry form c.Id)
      = (s2, oerr) := hcr
    have hno : ∀ a ∈ s.addressBooks, ¬ (a.UserId = (firstInstallEntry form c.Id).UserId ∧
        a.Id = (firstInstallEntry form c.Id).Id) :=
      Store.absent_of_entryCount s _ _ hcount
    have hnone := hk.2.2.2.2.1 rfl hno
    subst hnone
    have happ := (hk.2.2.2.1 rfl).2
    have hwf2 : s2.WF := Store.WF_insert s s2 _ hwf hno happ
    have hmem : ({ firstInstallEntry form c.Id with RowId := s.nextRowId } : AddressBook)
        ∈ s2.addressBooks := by rw [happ]; simp
    have e : step (storeServices Faults.none) env (.ok form)
        { pc := .provisioned form c, calls := calls } s
        = ({ pc := .done (.responded (.Success (env.TranslateMsg "DeviceAddedSuccessfully"
               [toString form.TargetUserId]))),
             calls := calls ++ [.Create (firstInstallEntry form c.Id)] }, s2) := by
      simp only [step, hcr2]
    rw [e]
    refine ⟨⟨rfl, ?_⟩, hwf2, hk.1, ?_, _, hmem, rfl, rfl, rfl, rfl⟩
    · simp [createdEntries_append, hcalls, createdEntries]
    · exact Store.entryCount_present s2 _ _ hwf2 ⟨_, hmem, rfl, rfl⟩

/-- A step of the run that lost the race, on a store that holds the entry: the
device-entry table is untouched, and the run answers "already exists" if it
had not checked before the insert, operation-failed 103 if it had. -/
theorem step_lost (env : Env) (form : FirstInstallReportForm) (loc : Location) (u : User)
    (t : Thread) (s : Store) (early : Bool)
    (hc : form.ClientId ≠ "") (hu : form.TargetUserId ≠ 0)
    (hloc : env.LoadLocation "Asia/Shanghai" = some loc)
    (hwf : s.WF) (hum : u ∈ s.users) (huid : u.Id = form.TargetUserId)
    (hcount : s.entryCount form.TargetUserId form.ClientId = 1)
    (hl : t.lost env form early) :
    (step (storeServices Faults.none) env (.ok form) t s).1.lost env form early ∧
    (step (storeServices Faults.none) env (.ok form) t s).2.users = s.users ∧
    (step (storeServices Faults.none) env (.ok form) t s).2.addressBooks = s.addressBooks := by
  have huser : ((storeServices Faults.none).InfoById s form.TargetUserId).Id ≠ 0 := by
    show (s.InfoById form.TargetUserId).Id ≠ 0
    rw [← huid, Store.InfoById_of_mem s u hum, huid]; exact hu
  have hex := Store.exists_of_entryCount s _ _ hcount
  obtain ⟨pc, calls⟩ := t
  rcases hl with ⟨rfl, hcalls, hpc⟩ | ⟨rfl, hpc, hlen⟩ | ⟨rfl, hcalls, hpc⟩
  · simp only at hcalls hpc
    rcases hpc with rfl | ⟨c, rfl⟩
    · rcases hp : Store.GetOrCreateDateCollection Faults.none s form.TargetUserId
        (In env.Now loc).Format with ⟨s1, r⟩
      have hg := Store.GetOrCreateDateCollection_spec Faults.none s s1 _ _ _ hp
      obtain ⟨c, rfl⟩ := hg.2.2.2.2.2 rfl
      have hp2 : (storeServices Faults.none).GetOrCreateDateCollection s form.TargetUserId
        (In env.Now loc).Format = (s1, .ok c) := hp
      have e : step (storeServices Faults.none) env (.ok form)
          { pc := .absent form, calls := calls } s
          = ({ pc := .provisioned form c,
               calls := calls ++
                 [.GetOrCreateDateCollection form.TargetUserId (In env.Now loc).Format] },
             s1) := by
        simp only [step, hloc, hp2]
      rw [e]
      refine ⟨Or.inl ⟨rfl, ?_, Or.inr ⟨c, rfl⟩⟩, hg.1, hg.2.1⟩
      simp [createdEntries_append, hcalls, createdEntries]
    · rcases hcr : Store.Create Faults.none s (firstInstallEntry form c.Id) with ⟨s2, oerr⟩
      have hk := Store.Create_spec Faults.none s s2 _ _ hcr
      have hcr2 : (storeServices Faults.none).Create s (firstInstallEntry form c.Id)
        = (s2, oerr) := hcr
      have herr := hk.2.2.2.2.2 rfl hex
      subst herr
      have hs2 : s2 = s := hk.2.2.1 _ rfl
      subst hs2
      have e : step (storeServices Faults.none) env (.ok form)
          { pc := .provisioned form c, calls := calls } s2
          = ({ pc := .done (.responded
                 (.Fail 103 (env.TranslateMsg "OperationFailed" [] ++ conflictMsg))),
               calls := calls ++ [.Create (firstInstallEntry form c.Id),
                 .LoggerError ("添加设备到地址簿失败: " ++ conflictMsg)] }, s2) := by
        simp only [step, hcr2]
      rw [e]
      refine ⟨Or.inr (Or.inl ⟨rfl, rfl, ?_⟩), rfl, rfl⟩
      simp [createdEntries_append, hcalls, createdEntries]
  · rw [step_done _ _ _ _ _ _ hpc]
    exact ⟨Or.inr (Or.inl ⟨rfl, hpc, hlen⟩), rfl, rfl⟩
  · simp only at hcalls hpc
    rcases hpc with rfl | rfl | rfl
    · have e : step (storeServices Faults.none) env (.ok form)
          { pc := .start, calls := calls } s
          = ({ pc := .resolved form, calls := calls ++ [.InfoById form.TargetUserId] }, s) := by
        simp [step, ValidStruct_eq_nil env form hc hu, huser]
      rw [e]
      refine ⟨Or.inr (Or.inr ⟨rfl, ?_, Or.inr (Or.inl rfl)⟩), rfl, rfl⟩
      simp [createdEntries_append, hcalls, createdEntries]
    · have hfound : 0 < ((storeServices Faults.none).InfoByUserIdAndId s form.TargetUserId
          form.ClientId).RowId :=
        Store.InfoByUserIdAndId_present s _ _ hwf.1 hex
      have e : step (storeServices Faults.none) env (.ok form)
          { pc := .resolved form, calls := calls } s
          = ({ pc := .done (.responded (.Success (env.TranslateMsg "DeviceAlreadyExists" []))),
               calls := calls ++ [.InfoByUserIdAndId form.TargetUserId form.ClientId] },
             s) := by
        simp [step, hfound]
      rw [e]
      refine ⟨Or.inr (Or.inr ⟨rfl, ?_, Or.inr (Or.inr rfl)⟩), rfl, rfl⟩
      simp [createdEntries_append, hcalls, createdEntries]
    · rw [step_done _ _ _ _ _ _ rfl]
      exact ⟨Or.inr (Or.inr ⟨rfl, hcalls, Or.inr (Or.inr rfl)⟩), rfl, rfl⟩

/-! ### Races: schedules -/

theorem interleave_cons (ra rb : Report) (x : Bool) (rest : List Bool) (st : Race) :
    interleave ra rb (x :: rest) st = interleave ra rb rest (Race.stepBy ra rb x st) := by
  cases x <;> rfl

theorem interleave_append (ra rb : Report) (p q : List Bool) :
    ∀ st : Race, interleave ra rb (p ++ q) st = interleave ra rb q (interleave ra rb p st) := by
  induction p with
  | nil => intro st; rfl
  | cons x rest ih =>
    intro st
    rw [List.cons_append, interleave_cons, interleave_cons, ih]

theorem stepBy_self (env : Bool → Env) (form : Bool → FirstInstallReportForm) (x : Bool)
    (st : Race) :
    (Race.stepBy (racer env form true) (racer env form false) x st).thread x
      = (step (storeServices Faults.none) (env x) (.ok (form x)) (st.thread x) st.store).1 := by
  cases x <;> rfl

theorem stepBy_other (ra rb : Report) (x : Bool) (st : Race) :
    (Race.stepBy ra rb x st).thread (!x) = st.thread (!x) := by
  cases x <;> rfl

theorem stepBy_store (env : Bool → Env) (form : Bool → FirstInstallReportForm) (x : Bool)
    (st : Race) :
    (Race.stepBy (racer env form true) (racer env form false) x st).store
      = (step (storeServices Faults.none) (env x) (.ok (form x)) (st.thread x) st.store).2 := by
  cases x <;> rfl

theorem bool_eq_or_not (x y : Bool) : y = x ∨ y = !x := by
  cases x <;> cases y <;> simp

theorem count_cons_self_bool (x : Bool) (rest : List Bool) :
    (x :: rest).count x = rest.count x + 1 := by simp

theorem count_cons_not_bool (x : Bool) (rest : List Bool) :
    (x :: rest).count (!x) = rest.count (!x) := by
  cases x <;> simp

theorem Store.WF_congr (s s1 : Store) (h : s1.addressBooks = s.addressBooks) (hwf : s.WF) :
    s1.WF := by
  unfold Store.WF; rw [h]; exact hwf

/-- As long as neither run has reached its insert, the entry is not stored and
each run stands where the number of its steps puts it. -/
theorem interleave_before (env : Bool → Env) (form : Bool → FirstInstallReportForm)
    (loc : Bool → Location) (u : User) (users : List User) (userId : Nat) (id : String)
    (hid : id ≠ "") (huid0 : userId ≠ 0)
    (hkey : ∀ x, (form x).TargetUserId = userId ∧ (form x).ClientId = id)
    (hloc : ∀ x, (env x).LoadLocation "Asia/Shanghai" = some (loc x))
    (hum : u ∈ users) (huid : u.Id = userId) (p : List Bool) :
    ∀ (st : Race) (k : Bool → Nat), st.store.WF → st.store.users = users →
      st.store.entryCount userId id = 0 →
      (∀ x, (st.thread x).before (form x) (k x)) → (∀ x, k x + p.count x ≤ 3) →
      (interleave (racer env form true) (racer env form false) p st).store.WF ∧
      (interleave (racer env form true) (racer env form false) p st).store.users = users ∧
      (interleave (racer env form true) (racer env form false) p st).store.entryCount userId id
        = 0 ∧
      ∀ x, ((interleave (racer env form true) (racer env form false) p st).thread x).before
        (form x) (k x + p.count x) := by
  induction p with
  | nil =>
    intro st k hwf husers hcount hb _
    exact ⟨hwf, husers, hcount, fun x => by simpa using hb x⟩
  | cons y rest ih =>
    intro st k hwf husers hcount hb hk
    rw [interleave_cons]
    have hky : k y ≤ 2 := by
      have := hk y
      rw [count_cons_self_bool] at this
      omega
    obtain ⟨hb1, hu1, ha1⟩ := step_before (env y) (form y) (loc y) u (st.thread y) st.store (k y)
      (by rw [(hkey y).2]; exact hid) (by rw [(hkey y).1]; exact huid0) (hloc y)
      (by rw [husers]; exact hum) (by rw [(hkey y).1]; exact huid)
      (by rw [(hkey y).1, (hkey y).2]; exact hcount) hky (hb y)
    rw [← stepBy_self env form y st] at hb1
    rw [← stepBy_store env form y st] at hu1 ha1
    have key := ih (Race.stepBy (racer env form true) (racer env form false) y st)
      (fun x => if x = y then k x + 1 else k x)
      (Store.WF_congr _ _ ha1 hwf) (hu1.trans husers)
      (by rw [Store.entryCount_congr _ _ ha1]; exact hcount)
      (by
        intro x
        rcases bool_eq_or_not y x with rfl | rfl
        · simpa using hb1
        · rw [stepBy_other]
          have hne : (!y) ≠ y := by cases y <;> simp
          simpa [hne] using hb (!y))
      (by
        intro x
        rcases bool_eq_or_not y x with rfl | rfl
        · have := hk x
          rw [count_cons_self_bool] at this
          simp only [if_true]
          omega
        · have := hk (!y)
          rw [count_cons_not_bool] at this
          have hne : (!y) ≠ y := by cases y <;> simp
          simp only [hne, if_false]
          exact this)
    obtain ⟨k1, k2, k3, k4⟩ := key
    refine ⟨k1, k2, k3, ?_⟩
    intro x
    have := k4 x
    rcases bool_eq_or_not y x with rfl | rfl
    · rw [count_cons_self_bool]
      simp only [if_true] at this
      have e : k x + (rest.count x + 1) = k x + 1 + rest.count x := by omega
      rw [e]; exact this
    · rw [count_cons_not_bool]
      have hne : (!y) ≠ y := by cases y <;> simp
      simp only [hne, if_false] at this
      exact this

/-- Once run `w` has stored the entry, no later step of either run changes the
device-entry table, run `w` keeps its answer and the other run stays on the
path its check put it on. -/
theorem interleave_after (env : Bool → Env) (form : Bool → FirstInstallReportForm)
    (loc : Bool → Location) (u : User) (users : List User) (userId : Nat) (id : String)
    (hid : id ≠ "") (huid0 : userId ≠ 0)
    (hkey : ∀ x, (form x).TargetUserId = userId ∧ (form x).ClientId = id)
    (hloc : ∀ x, (env x).LoadLocation "Asia/Shanghai" = some (loc x))
    (hum : u ∈ users) (huid : u.Id = userId) (w early : Bool) (q : List Bool) :
    ∀ st : Race, st.after env form users userId id w early →
      (interleave (racer env form true) (racer env form false) q st).after
        env form users userId id w early := by
  induction q with
  | nil => intro st h; exact h
  | cons y rest ih =>
    intro st ⟨hwf, husers, hcount, hentry, hwon, hlost⟩
    rw [interleave_cons]
    apply ih
    rcases bool_eq_or_not w y with rfl | rfl
    · -- a step of the run that has returned
      have e : step (storeServices Faults.none) (env y) (.ok (form y)) (st.thread y) st.store
          = (st.thread y, st.store) := step_done _ _ _ _ _ _ hwon.1
      have e1 := stepBy_self env form y st
      have e2 := stepBy_store env form y st
      rw [e] at e1 e2
      simp only at e1 e2
      refine ⟨?_, ?_, ?_, ?_, ?_, ?_⟩
      · rw [e2]; exact hwf
      · rw [e2]; exact husers
      · rw [e2]; exact hcount
      · rw [e2]; exact hentry
      · rw [e1]; exact hwon
      · rw [stepBy_other]; exact hlost
    · -- a step of the other run
      obtain ⟨hl1, hu1, ha1⟩ := step_lost (env (!w)) (form (!w)) (loc (!w)) u
        (st.thread (!w)) st.store early
        (by rw [(hkey (!w)).2]; exact hid) (by rw [(hkey (!w)).1]; exact huid0) (hloc (!w))
        hwf (by rw [husers]; exact hum) (by rw [(hkey (!w)).1]; exact huid)
        (by rw [(hkey (!w)).1, (hkey (!w)).2]; exact hcount) hlost
      rw [← stepBy_self env form (!w) st] at hl1
      rw [← stepBy_store env form (!w) st] at hu1 ha1
      have hother := stepBy_other (racer env form true) (racer env form false) (!w) st
      rw [Bool.not_not] at hother
      refine ⟨Store.WF_congr _ _ ha1 hwf, hu1.trans husers, ?_, ?_, ?_, hl1⟩
      · rw [Store.entryCount_congr _ _ ha1]; exact hcount
      · rw [ha1]; exact hentry
      · rw [hother]; exact hwon

theorem interleave_rank_thread (ra rb : Report) (sched : List Bool) (st : Race) (x : Bool) :
    ((interleave ra rb sched st).thread x).pc.rank ≤ (st.thread x).pc.rank - sched.count x := by
  cases x
  · exact (interleave_rank ra rb sched st).2
  · exact (interleave_rank ra rb sched st).1

theorem Thread.before_rank (form : FirstInstallReportForm) (k : Nat) (t : Thread)
    (h : t.before form k) : t.pc.rank = 4 - k := by
  obtain ⟨_, hpos⟩ := h
  rcases hpos with ⟨rfl, h⟩ | ⟨rfl, h⟩ | ⟨rfl, h⟩ | ⟨rfl, c, h⟩ <;> rw [h] <;> rfl

theorem Thread.lost_of_before (env : Env) (form : FirstInstallReportForm) (k : Nat)
    (t : Thread) (h : t.before form k) : t.lost env form (decide (2 ≤ k)) := by
  obtain ⟨hcalls, hpos⟩ := h
  rcases hpos with ⟨rfl, h⟩ | ⟨rfl, h⟩ | ⟨rfl, h⟩ | ⟨rfl, c, h⟩
  · exact Or.inr (Or.inr ⟨by decide, hcalls, Or.inl h⟩)
  · exact Or.inr (Or.inr ⟨by decide, hcalls, Or.inr (Or.inl h)⟩)
  · exact Or.inl ⟨by decide, hcalls, Or.inl h⟩
  · exact Or.inl ⟨by decide, hcalls, Or.inr ⟨c, h⟩⟩

/-- Every schedule that lets both runs return has a first fourth step: the
`Create` call that comes first. -/
theorem first_insert (sched : List Bool) :
    ∀ ka kb : Nat, ka ≤ 3 → kb ≤ 3 →
      (4 ≤ ka + sched.count true ∨ 4 ≤ kb + sched.count false) →
      ∃ w p q, sched = p ++ w :: q ∧
        (if w then ka else kb) + p.count w = 3 ∧ (if w then kb else ka) + p.count (!w) ≤ 3 := by
  induction sched with
  | nil => intro ka kb ha hb h; simp at h; omega
  | cons x rest ih =>
    intro ka kb ha hb h
    cases x with
    | true =>
      by_cases h3 : ka = 3
      · exact ⟨true, [], rest, rfl, by simp [h3], by simpa using hb⟩
      · have hc1 : (true :: rest).count true = rest.count true + 1 := by simp
        have hc2 : (true :: rest).count false = rest.count false := by simp
        rw [hc1, hc2] at h
        obtain ⟨w, p, q, hs, h1, h2⟩ := ih (ka + 1) kb (by omega) hb (by omega)
        refine ⟨w, true :: p, q, by rw [hs]; rfl, ?_, ?_⟩
        · cases w <;> simp at h1 h2 ⊢ <;> omega
        · cases w <;> simp at h1 h2 ⊢ <;> omega
    | false =>
      by_cases h3 : kb = 3
      · exact ⟨false, [], rest, rfl, by simp [h3], by simpa using ha⟩
      · have hc1 : (false :: rest).count true = rest.count true := by simp
        have hc2 : (false :: rest).count false = rest.count false + 1 := by simp
        rw [hc1, hc2] at h
        obtain ⟨w, p, q, hs, h1, h2⟩ := ih ka (kb + 1) ha (by omega) (by omega)
        refine ⟨w, false :: p, q, by rw [hs]; rfl, ?_, ?_⟩
        · cases w <;> simp at h1 h2 ⊢ <;> omega
        · cases w <;> simp at h1 h2 ⊢ <;> omega

/-- C8 as amended. Two first reports of one new device race on a well-formed
store that holds the target user (both reports valid and for the same key, no
persistence fault, `Asia/Shanghai` known to both). For every schedule that lets
both runs return (four steps each) there is a first insert: a run `w` whose
fourth step, its `Create` call, comes before the other run's. For that run and
the steps `p` before its insert: exactly one entry with the key ends up stored
and it carries the hostname and platform of `w`; `w` answers "added" after one
`Create` call; the other run answers operation-failed 103 on the conflict,
after its own `Create` call, when its existence check came before the insert
(it had taken two steps or more), and "already exists" without calling
`Create` when it had not. The check and the insert are two calls, not one
atomic operation. -/
theorem race_first_insert_wins (env : Bool → Env) (form : Bool → FirstInstallReportForm)
    (loc : Bool → Location) (u : User) (s : Store) (sched : List Bool)
    (hc : (form true).ClientId ≠ "") (hu : (form true).TargetUserId ≠ 0)
    (hsame : (form false).ClientId = (form true).ClientId ∧
      (form false).TargetUserId = (form true).TargetUserId)
    (hloc : ∀ x, (env x).LoadLocation "Asia/Shanghai" = some (loc x))
    (hwf : s.WF) (huser : u ∈ s.users ∧ u.Id = (form true).TargetUserId)
    (hnew : s.entryCount (form true).TargetUserId (form true).ClientId = 0)
    (hfair : 4 ≤ sched.count true ∧ 4 ≤ sched.count false) :
    (∃ w p q, sched = p ++ w :: q ∧ p.count w = 3 ∧ p.count (!w) ≤ 3) ∧
    ∀ w p q, sched = p ++ w :: q → p.count w = 3 → p.count (!w) ≤ 3 →
      (race env form sched s).store.entryCount (form true).TargetUserId (form true).ClientId
        = 1 ∧
      (∃ a ∈ (race env form sched s).store.addressBooks,
        a.UserId = (form true).TargetUserId ∧ a.Id = (form true).ClientId ∧
        a.Hostname = (form w).Hostname ∧ a.Platform = (form w).Platform) ∧
      ((race env form sched s).thread w).pc
        = .done (.responded (.Success ((env w).TranslateMsg "DeviceAddedSuccessfully"
            [toString (form w).TargetUserId]))) ∧
      (createdEntries ((race env form sched s).thread w).calls).length = 1 ∧
      (2 ≤ p.count (!w) →
        ((race env form sched s).thread (!w)).pc
          = .done (.responded (.Fail 103
              ((env (!w)).TranslateMsg "OperationFailed" [] ++ conflictMsg))) ∧
        (createdEntries ((race env form sched s).thread (!w)).calls).length = 1) ∧
      (p.count (!w) < 2 →
        ((race env form sched s).thread (!w)).pc
          = .done (.responded (.Success ((env (!w)).TranslateMsg "DeviceAlreadyExists" []))) ∧
        createdEntries ((race env form sched s).thread (!w)).calls = []) := by
  constructor
  · obtain ⟨w, p, q, hs, h1, h2⟩ := first_insert sched 0 0 (by omega) (by omega)
      (Or.inl (by omega))
    refine ⟨w, p, q, hs, ?_, ?_⟩
    · cases w <;> simpa using h1
    · cases w <;> simpa using h2
  · intro w p q hs hw hl
    have hkey : ∀ x, (form x).TargetUserId = (form true).TargetUserId ∧
        (form x).ClientId = (form true).ClientId := by
      intro x; cases x
      · exact ⟨hsame.2, hsame.1⟩
      · exact ⟨rfl, rfl⟩
    -- the steps before the first insert
    have hinit : ∀ x, ((Race.init s).thread x).before (form x) 0 := by
      intro x; cases x <;> exact ⟨rfl, Or.inl ⟨rfl, rfl⟩⟩
    have hk : ∀ x, 0 + p.count x ≤ 3 := by
      intro x
      rcases bool_eq_or_not w x with rfl | rfl <;> omega
    obtain ⟨b1, b2, b3, b4⟩ := interleave_before env form loc u s.users _ _ hc hu hkey hloc
      huser.1 huser.2 p (Race.init s) (fun _ => 0) hwf rfl hnew hinit hk
    -- the first insert
    have hbw := b4 w
    rw [Nat.zero_add, hw] at hbw
    obtain ⟨i1, i2, i3, i4, i5⟩ := step_insert (env w) (form w) _ _ b1
      (by rw [(hkey w).1, (hkey w).2]; exact b3) hbw
    rw [← stepBy_self env form w] at i1
    rw [← stepBy_store env form w] at i2 i3 i4 i5
    rw [(hkey w).1, (hkey w).2] at i4 i5
    have hbl := b4 (!w)
    rw [Nat.zero_add] at hbl
    have hafter : (Race.stepBy (racer env form true) (racer env form false) w
        (interleave (racer env form true) (racer env form false) p (Race.init s))).after
        env form s.users (form true).TargetUserId (form true).ClientId w
        (decide (2 ≤ p.count (!w))) := by
      refine ⟨i2, i3.trans b2, i4, i5, i1, ?_⟩
      rw [stepBy_other]
      exact Thread.lost_of_before _ _ _ _ hbl
    -- the steps after it
    obtain ⟨a1, a2, a3, a4, a5, a6⟩ := interleave_after env form loc u s.users _ _ hc hu hkey
      hloc huser.1 huser.2 w _ q _ hafter
    have hrace : race env form sched s
        = interleave (racer env form true) (racer env form false) q
            (Race.stepBy (racer env form true) (racer env form false) w
              (interleave (racer env form true) (racer env form false) p (Race.init s))) := by
      unfold race
      rw [hs, interleave_append, interleave_cons]
    rw [hrace]
    -- the run that lost has returned
    have hrank := interleave_rank_thread (racer env form true) (racer env form false) q
      (Race.stepBy (racer env form true) (racer env form false) w
        (interleave (racer env form true) (racer env form false) p (Race.init s))) (!w)
    rw [stepBy_other, Thread.before_rank _ _ _ hbl] at hrank
    have hcount : sched.count (!w) = p.count (!w) + q.count (!w) := by
      rw [hs, List.count_append]
      have : (w :: q).count (!w) = q.count (!w) := by cases w <;> simp
      rw [this]
    have hfairl : 4 ≤ sched.count (!w) := by cases w <;> simp [hfair.1, hfair.2]
    have hzero : ((interleave (racer env form true) (racer env form false) q
        (Race.stepBy (racer env form true) (racer env form false) w
          (interleave (racer env form true) (racer env form false) p (Race.init s)))).thread
        (!w)).pc.rank = 0 := by omega
    obtain ⟨o, ho⟩ := Pc.done_of_rank _ hzero
    refine ⟨a3, a4, a5.1, a5.2, ?_, ?_⟩
    · intro h2
      rcases a6 with ⟨_, _, hpc⟩ | ⟨_, hpc, hlen⟩ | ⟨he, _, _⟩
      · rcases hpc with hpc | ⟨c, hpc⟩ <;> rw [hpc] at ho <;> simp at ho
      · exact ⟨hpc, hlen⟩
      · simp at he; omega
    · intro h2
      rcases a6 with ⟨he, _, _⟩ | ⟨he, _, _⟩ | ⟨_, hcalls, hpc⟩
      · simp at he; omega
      · simp at he; omega
      · rcases hpc with hpc | hpc | hpc
        · rw [hpc] at ho; simp at ho
        · rw [hpc] at ho; simp at ho
        · exact ⟨hpc, hcalls⟩

/-- C8 as amended, at the schedule in which both runs check before either
inserts: run `a` inserts first, one entry is stored, run `a` answers "added"
and run `b` answers operation-failed 103 after its own `Create` call. -/
theorem race_first_insert_wins_witness :
    (race (fun _ => sampleEnv 1704067200) (fun _ => sampleForm)
        [true, true, false, false, true, true, false, false] sampleStore).store.entryCount
        42 "dev-1" = 1 ∧
    ((race (fun _ => sampleEnv 1704067200) (fun _ => sampleForm)
        [true, true, false, false, true, true, false, false] sampleStore).thread true).pc
      = .done (.responded (.Success ((sampleEnv 1704067200).TranslateMsg
          "DeviceAddedSuccessfully" [toString sampleForm.TargetUserId]))) ∧
    ((race (fun _ => sampleEnv 1704067200) (fun _ => sampleForm)
        [true, true, false, false, true, true, false, false] sampleStore).thread false).pc
      = .done (.responded (.Fail 103
          ((sampleEnv 1704067200).TranslateMsg "OperationFailed" [] ++ conflictMsg))) ∧
    (createdEntries ((race (fun _ => sampleEnv 1704067200) (fun _ => sampleForm)
        [true, true, false, false, true, true, false, false] sampleStore).thread
        false).calls).length = 1 :=
  have h := (race_first_insert_wins (fun _ => sampleEnv 1704067200) (fun _ => sampleForm)
    (fun _ => { name := "Asia/Shanghai", lookup := fun _ => 28800 }) { Id := 42 } sampleStore
    [true, true, false, false, true, true, false, false]
    (by decide) (by decide) ⟨rfl, rfl⟩ (fun _ => rfl) (by decide) ⟨by decide, rfl⟩ (by decide)
    ⟨by decide, by decide⟩).2 true [true, true, false, false, true] [false, false] rfl
    (by decide) (by decide)
  ⟨h.1, h.2.2.1, (h.2.2.2.2.1 (by decide)).1, (h.2.2.2.2.1 (by decide)).2⟩

/-- C8, counterexample. On the sample store, when both runs make the existence
check before either inserts, run `b` finds no entry, calls `Create` all the
same and ends with operation-failed 103; in both serial orders run `b` ends
with a success. The check and the insert are not one atomic
insert-or-return-existing operation. -/
theorem check_then_act_not_atomic :
    (interleave sampleReport sampleReport [true, true, false, false, true, true, false, false]
        (Race.init sampleStore)).b.pc
      = .done (.responded (.Fail 103 "OperationFailedduplicate entry for (user_id, id)")) ∧
    (interleave sampleReport sampleReport [true, true, false, false, true, true, false, false]
        (Race.init sampleStore)).b.calls
      = [.InfoById 42, .InfoByUserIdAndId 42 "dev-1",
         .GetOrCreateDateCollection 42 "2024-01-01",
         .Create (firstInstallEntry sampleForm 1),
         .LoggerError ("添加设备到地址簿失败: " ++ conflictMsg)] ∧
    (interleave sampleReport sampleReport [true, true, true, true, false, false, false, false]
        (Race.init sampleStore)).b.pc
      = .done (.responded (.Success "DeviceAlreadyExists")) ∧
    (interleave sampleReport sampleReport [false, false, false, false, true, true, true, true]
        (Race.init sampleStore)).b.pc
      = .done (.responded (.Success "DeviceAddedSuccessfully 42")) := by
  decide

/-- C4. Registration: for a valid report whose target user exists and whose
device has no stored entry, when `Asia/Shanghai` loads and both
`GetOrCreateDateCollection` (called with the target user id and the date label
of the current instant) and `Create` succeed, the response is the "added"
success and exactly one entry was passed to `Create`: `Id`, `Hostname`,
`Platform` and `UserId` of the report, `CollectionId` of the returned
collection, `Status = 0` (offline). -/
theorem FirstInstallReport_registers_new_device {σ : Type} (svc : Services σ) (env : Env)
    (form : FirstInstallReportForm) (s s1 s2 : σ) (loc : Location)
    (defaultCollection : AddressBookCollection)
    (hc : form.ClientId ≠ "") (hu : form.TargetUserId ≠ 0)
    (huser : (svc.InfoById s form.TargetUserId).Id ≠ 0)
    (hnew : (svc.InfoByUserIdAndId s form.TargetUserId form.ClientId).RowId = 0)
    (hloc : env.LoadLocation "Asia/Shanghai" = some loc)
    (hprov : svc.GetOrCreateDateCollection s form.TargetUserId (In env.Now loc).Format
      = (s1, .ok defaultCollection))
    (hcreate : svc.Create s1
      { RowId := 0, Id := form.ClientId, Hostname := form.Hostname, Platform := form.Platform,
        UserId := form.TargetUserId, CollectionId := defaultCollection.Id, Status := 0 }
      = (s2, Option.none)) :
    (FirstInstallReport svc env (.ok form) s).outcome
      = .responded (.Success (env.TranslateMsg "DeviceAddedSuccessfully"
          [toString form.TargetUserId])) ∧
    createdEntries (FirstInstallReport svc env (.ok form) s).calls
      = [{ RowId := 0, Id := form.ClientId, Hostname := form.Hostname,
           Platform := form.Platform, UserId := form.TargetUserId,
           CollectionId := defaultCollection.Id, Status := 0 }] ∧
    provisionRequests (FirstInstallReport svc env (.ok form) s).calls
      = [(form.TargetUserId, (In env.Now loc).Format)] ∧
    (FirstInstallReport svc env (.ok form) s).state = s2 := by
  rw [FirstInstallReport_created svc env form s s1 s2 loc defaultCollection hc hu huser hnew hloc
    hprov hcreate]
  simp [createdEntries, provisionRequests, firstInstallEntry]

/-- C4 at the example of the specification: device "dev-1" for user 42 on
2024-01-01 yields the collection `(42, "2024-01-01")` and the offline entry
that points to it. -/
theorem FirstInstallReport_registers_new_device_witness :
    createdEntries (FirstInstallReport (storeServices Faults.none) (sampleEnv 1704067200)
        (.ok sampleForm) sampleStore).calls
      = [{ RowId := 0, Id := "dev-1", Hostname := "h1", Platform := "linux", UserId := 42,
           CollectionId := 1, Status := 0 }] ∧
    (FirstInstallReport (storeServices Faults.none) (sampleEnv 1704067200)
        (.ok sampleForm) sampleStore).state
      = { users := [{ Id := 42 }],
          collections := [{ Id := 1, UserId := 42, Name := "2024-01-01" }],
          addressBooks := [{ RowId := 1, Id := "dev-1", Hostname := "h1", Platform := "linux",
                             UserId := 42, CollectionId := 1, Status := 0 }] } :=
  have h := FirstInstallReport_registers_new_device (storeServices Faults.none)
    (sampleEnv 1704067200) sampleForm sampleStore
    { users := [{ Id := 42 }],
      collections := [{ Id := 1, UserId := 42, Name := "2024-01-01" }],
      addressBooks := [] }
    { users := [{ Id := 42 }],
      collections := [{ Id := 1, UserId := 42, Name := "2024-01-01" }],
      addressBooks := [{ RowId := 1, Id := "dev-1", Hostname := "h1", Platform := "linux",
                         UserId := 42, CollectionId := 1, Status := 0 }] }
    { name := "Asia/Shanghai", lookup := fun _ => 28800 }
    { Id := 1, UserId := 42, Name := "2024-01-01" }
    (by decide) (by decide) (by decide) (by decide) rfl rfl rfl
  ⟨h.2.1, h.2.2.2⟩

/-- C6, counterexample. When `Create` answers the sample report with a
conflict, the response is failure 103, not a success. -/
theorem conflict_is_surfaced :
    (storeServices { provision := Option.none,
                     create := some { kind := .conflict, msg := conflictMsg } }).Create
        { users := [{ Id := 42 }],
          collections := [{ Id := 1, UserId := 42, Name := "2024-01-01" }],
          addressBooks := [] }
        { RowId := 0, Id := "dev-1", Hostname := "h1", Platform := "linux", UserId := 42,
          CollectionId := 1, Status := 0 }
      = ({ users := [{ Id := 42 }],
           collections := [{ Id := 1, UserId := 42, Name := "2024-01-01" }],
           addressBooks := [] },
         some { kind := .conflict, msg := conflictMsg }) ∧
    (FirstInstallReport
        (storeServices { provision := Option.none,
                         create := some { kind := .conflict, msg := conflictMsg } })
        (sampleEnv 1704067200) (.ok sampleForm) sampleStore).outcome
      = .responded (.Fail 103 "OperationFailedduplicate entry for (user_id, id)") := by
  decide

/-- C6 as amended. For a valid report whose target user exists and whose device
was not found by the existence check, if `Create` fails with a conflict the
handler logs the error and returns the operation-failed response (code 103)
carrying the error text, after exactly one `Create` call. -/
theorem FirstInstallReport_conflict_fails {σ : Type} (svc : Services σ) (env : Env)
    (form : FirstInstallReportForm) (s s1 s2 : σ) (loc : Location)
    (defaultCollection : AddressBookCollection) (err : GoError)
    (hc : form.ClientId ≠ "") (hu : form.TargetUserId ≠ 0)
    (huser : (svc.InfoById s form.TargetUserId).Id ≠ 0)
    (hnew : (svc.InfoByUserIdAndId s form.TargetUserId form.ClientId).RowId = 0)
    (hloc : env.LoadLocation "Asia/Shanghai" = some loc)
    (hprov : svc.GetOrCreateDateCollection s form.TargetUserId (In env.Now loc).Format
      = (s1, .ok defaultCollection))
    (hcreate : svc.Create s1
      { RowId := 0, Id := form.ClientId, Hostname := form.Hostname, Platform := form.Platform,
        UserId := form.TargetUserId, CollectionId := defaultCollection.Id, Status := 0 }
      = (s2, some err))
    (hconflict : err.kind = .conflict) :
    (FirstInstallReport svc env (.ok form) s).outcome
      = .responded (.Fail 103 (env.TranslateMsg "OperationFailed" [] ++ err.msg)) ∧
    (FirstInstallReport svc env (.ok form) s).calls
      = [.InfoById form.TargetUserId,
         .InfoByUserIdAndId form.TargetUserId form.ClientId,
         .GetOrCreateDateCollection form.TargetUserId (In env.Now loc).Format,
         .Create { RowId := 0, Id := form.ClientId, Hostname := form.Hostname,
                   Platform := form.Platform, UserId := form.TargetUserId,
                   CollectionId := defaultCollection.Id, Status := 0 },
         .LoggerError ("添加设备到地址簿失败: " ++ err.msg)] ∧
    (FirstInstallReport svc env (.ok form) s).state = s2 := by
  have _ := hconflict
  rw [FirstInstallReport_create_failed svc env form s s1 s2 loc defaultCollection err hc hu huser
    hnew hloc hprov hcreate]
  simp [firstInstallEntry]

/-- C6 as amended, at the sample report. -/
theorem FirstInstallReport_conflict_fails_witness :
    (FirstInstallReport
        (storeServices { provision := Option.none,
                         create := some { kind := .conflict, msg := conflictMsg } })
        (sampleEnv 1704067200) (.ok sampleForm) sampleStore).outcome
      = .responded (.Fail 103 ((sampleEnv 1704067200).TranslateMsg "OperationFailed" []
          ++ conflictMsg)) :=
  (FirstInstallReport_conflict_fails
    (storeServices { provision := Option.none,
                     create := some { kind := .conflict, msg := conflictMsg } })
    (sampleEnv 1704067200) sampleForm sampleStore
    { users := [{ Id := 42 }],
      collections := [{ Id := 1, UserId := 42, Name := "2024-01-01" }],
      addressBooks := [] }
    { users := [{ Id := 42 }],
      collections := [{ Id := 1, UserId := 42, Name := "2024-01-01" }],
      addressBooks := [] }
    { name := "Asia/Shanghai", lookup := fun _ => 28800 }
    { Id := 1, UserId := 42, Name := "2024-01-01" }
    { kind := .conflict, msg := conflictMsg }
    (by decide) (by decide) (by decide) (by decide) rfl rfl rfl rfl).1

/-- C7. Operation failed: for a valid report whose target user exists and
whose device has no stored entry (and `Asia/Shanghai` loads), an error from
`GetOrCreateDateCollection` gives failure 103 with no `Create` call; a
non-conflict error from `Create` after a successful provisioning gives failure
103. Either way `GetOrCreateDateCollection` was called once and `Create` at most
once: nothing is retried and no success is returned. -/
theorem FirstInstallReport_operation_failed {σ : Type} (svc : Services σ) (env : Env)
    (form : FirstInstallReportForm) (s : σ) (loc : Location)
    (hc : form.ClientId ≠ "") (hu : form.TargetUserId ≠ 0)
    (huser : (svc.InfoById s form.TargetUserId).Id ≠ 0)
    (hnew : (svc.InfoByUserIdAndId s form.TargetUserId form.ClientId).RowId = 0)
    (hloc : env.LoadLocation "Asia/Shanghai" = some loc) :
    (∀ s1 err,
      svc.GetOrCreateDateCollection s form.TargetUserId (In env.Now loc).Format
        = (s1, .error err) →
      (FirstInstallReport svc env (.ok form) s).outcome
        = .responded (.Fail 103 (env.TranslateMsg "OperationFailed" [] ++ err.msg)) ∧
      createdEntries (FirstInstallReport svc env (.ok form) s).calls = [] ∧
      provisionRequests (FirstInstallReport svc env (.ok form) s).calls
        = [(form.TargetUserId, (In env.Now loc).Format)] ∧
      (FirstInstallReport svc env (.ok form) s).state = s1) ∧
    (∀ s1 defaultCollection s2 err,
      svc.GetOrCreateDateCollection s form.TargetUserId (In env.Now loc).Format
        = (s1, .ok defaultCollection) →
      svc.Create s1
        { RowId := 0, Id := form.ClientId, Hostname := form.Hostname,
          Platform := form.Platform, UserId := form.TargetUserId,
          CollectionId := defaultCollection.Id, Status := 0 } = (s2, some err) →
      err.kind ≠ .conflict →
      (FirstInstallReport svc env (.ok form) s).outcome
        = .responded (.Fail 103 (env.TranslateMsg "OperationFailed" [] ++ err.msg)) ∧
      createdEntries (FirstInstallReport svc env (.ok form) s).calls
        = [{ RowId := 0, Id := form.ClientId, Hostname := form.Hostname,
             Platform := form.Platform, UserId := form.TargetUserId,
             CollectionId := defaultCollection.Id, Status := 0 }] ∧
      provisionRequests (FirstInstallReport svc env (.ok form) s).calls
        = [(form.TargetUserId, (In env.Now loc).Format)] ∧
      (FirstInstallReport svc env (.ok form) s).state = s2) := by
  constructor
  · intro s1 err hprov
    rw [FirstInstallReport_provision_failed svc env form s s1 loc err hc hu huser hnew hloc hprov]
    simp [createdEntries, provisionRequests]
  · intro s1 c s2 err hprov hcreate _
    rw [FirstInstallReport_create_failed svc env form s s1 s2 loc c err hc hu huser hnew hloc
      hprov hcreate]
    simp [createdEntries, provisionRequests, firstInstallEntry]

/-- C7 at the sample report, once with a failing provisioning and once with a
failing insert. -/
theorem FirstInstallReport_operation_failed_witness :
    ((FirstInstallReport
        (storeServices { provision := some { kind := .other, msg := "database is locked" },
                         create := Option.none })
        (sampleEnv 1704067200) (.ok sampleForm) sampleStore).outcome
      = .responded (.Fail 103 ((sampleEnv 1704067200).TranslateMsg "OperationFailed" []
          ++ "database is locked")) ∧
     createdEntries (FirstInstallReport
        (storeServices { provision := some { kind := .other, msg := "database is locked" },
                         create := Option.none })
        (sampleEnv 1704067200) (.ok sampleForm) sampleStore).calls = []) ∧
    (FirstInstallReport
        (storeServices { provision := Option.none,
                         create := some { kind := .other, msg := "database is locked" } })
        (sampleEnv 1704067200) (.ok sampleForm) sampleStore).outcome
      = .responded (.Fail 103 ((sampleEnv 1704067200).TranslateMsg "OperationFailed" []
          ++ "database is locked")) :=
  have h1 := (FirstInstallReport_operation_failed
    (storeServices { provision := some { kind := .other, msg := "database is locked" },
                     create := Option.none })
    (sampleEnv 1704067200) sampleForm sampleStore
    { name := "Asia/Shanghai", lookup := fun _ => 28800 }
    (by decide) (by decide) (by decide) (by decide) rfl).1 sampleStore
    { kind := .other, msg := "database is locked" } rfl
  have h2 := (FirstInstallReport_operation_failed
    (storeServices { provision := Option.none,
                     create := some { kind := .other, msg := "database is locked" } })
    (sampleEnv 1704067200) sampleForm sampleStore
    { name := "Asia/Shanghai", lookup := fun _ => 28800 }
    (by decide) (by decide) (by decide) (by decide) rfl).2
    { users := [{ Id := 42 }],
      collections := [{ Id := 1, UserId := 42, Name := "2024-01-01" }],
      addressBooks := [] }
    { Id := 1, UserId := 42, Name := "2024-01-01" }
    { users := [{ Id := 42 }],
      collections := [{ Id := 1, UserId := 42, Name := "2024-01-01" }],
      addressBooks := [] }
    { kind := .other, msg := "database is locked" } rfl rfl (by decide)
  ⟨⟨h1.1, h1.2.1⟩, h2.1⟩

/-- C9, counterexample. At 2024-01-01T20:00:00Z with the reference zone
configured as UTC the date is 2024-01-01, yet the handler provisions the
bucket "2024-01-02": the zone is the literal `Asia/Shanghai`. -/
theorem date_label_ignores_configured_zone :
    provisionRequests (FirstInstallReport (storeServices Faults.none) (sampleEnv 1704139200)
        (.ok sampleForm) sampleStore).calls = [(42, "2024-01-02")] ∧
    (sampleZones "UTC").map (fun loc => (In 1704139200 loc).Format) = some "2024-01-01" := by
  decide

/-- C9 as amended. Whenever the handler reaches the provisioning call, the label
it passes is the date of the current instant in the location that
`time.LoadLocation("Asia/Shanghai")` returned; for a year from 0 to 9999 that
label is `YYYY-MM-DD`: four, two and two zero-padded decimal digits, month in
1..12 and day in 1..31. No configuration value enters the computation. -/
theorem FirstInstallReport_date_label {σ : Type} (svc : Services σ) (env : Env)
    (form : FirstInstallReportForm) (s : σ) (loc : Location)
    (hc : form.ClientId ≠ "") (hu : form.TargetUserId ≠ 0)
    (huser : (svc.InfoById s form.TargetUserId).Id ≠ 0)
    (hnew : (svc.InfoByUserIdAndId s form.TargetUserId form.ClientId).RowId = 0)
    (hloc : env.LoadLocation "Asia/Shanghai" = some loc) :
    provisionRequests (FirstInstallReport svc env (.ok form) s).calls
      = [(form.TargetUserId, (In env.Now loc).Format)] ∧
    (0 ≤ (In env.Now loc).Date.1 → (In env.Now loc).Date.1 ≤ 9999 →
      (In env.Now loc).Format
        = dateLabel (In env.Now loc).Date.1.natAbs (In env.Now loc).Date.2.1.natAbs
            (In env.Now loc).Date.2.2.natAbs ∧
      1 ≤ (In env.Now loc).Date.2.1 ∧ (In env.Now loc).Date.2.1 ≤ 12 ∧
      1 ≤ (In env.Now loc).Date.2.2 ∧ (In env.Now loc).Date.2.2 ≤ 31) := by
  refine ⟨?_, ?_⟩
  · rcases hp : svc.GetOrCreateDateCollection s form.TargetUserId (In env.Now loc).Format
      with ⟨s1, r⟩
    cases r with
    | error err =>
      rw [FirstInstallReport_provision_failed svc env form s s1 loc err hc hu huser hnew hloc hp]
      simp [provisionRequests]
    | ok c =>
      rcases hcr : svc.Create s1 (firstInstallEntry form c.Id) with ⟨s2, oerr⟩
      cases oerr with
      | none =>
        rw [FirstInstallReport_created svc env form s s1 s2 loc c hc hu huser hnew hloc hp hcr]
        simp [provisionRequests]
      | some err =>
        rw [FirstInstallReport_create_failed svc env form s s1 s2 loc c err hc hu huser hnew
          hloc hp hcr]
        simp [provisionRequests]
  · intro h0 h1
    exact ⟨Format_eq_dateLabel _ h0 h1, civil_month_day _⟩

/-- C9 as amended, at 2024-01-01T20:00:00Z: the label is "2024-01-02". -/
theorem FirstInstallReport_date_label_witness :
    provisionRequests (FirstInstallReport (storeServices Faults.none) (sampleEnv 1704139200)
        (.ok sampleForm) sampleStore).calls
      = [(42, (In 1704139200 { name := "Asia/Shanghai", lookup := fun _ => 28800 }).Format)] ∧
    (In 1704139200 { name := "Asia/Shanghai", lookup := fun _ => 28800 }).Format
      = dateLabel 2024 1 2 ∧
    dateLabel 2024 1 2 = "2024-01-02" :=
  have h := FirstInstallReport_date_label (storeServices Faults.none) (sampleEnv 1704139200)
    sampleForm sampleStore { name := "Asia/Shanghai", lookup := fun _ => 28800 }
    (by decide) (by decide) (by decide) (by decide) rfl
  ⟨h.1, (h.2 (by decide) (by decide)).1, by decide⟩

/-- C10, failing input. On a host whose zone database lacks `Asia/Shanghai`,
`time.LoadLocation` returns a nil location, its error is discarded, and the
valid sample report for a new device ends in the panic of `Time.In`, not in
one of the four responses. -/
theorem FirstInstallReport_panics_without_zone_database :
    (FirstInstallReport (storeServices Faults.none) (noZonesEnv 1704067200)
        (.ok sampleForm) sampleStore).outcome
      = .panicked "time: missing Location in call to Time.In" ∧
    (FirstInstallReport (storeServices Faults.none) (noZonesEnv 1704067200)
        (.ok sampleForm) sampleStore).outcome.isResponse = false := by
  decide

/-- When the zone database has `Asia/Shanghai`, every run ends with one of the
four responses. -/
theorem FirstInstallReport_responds {σ : Type} (svc : Services σ) (env : Env)
    (bind : Except String FirstInstallReportForm) (s : σ) (loc : Location)
    (hloc : env.LoadLocation "Asia/Shanghai" = some loc) :
    (FirstInstallReport svc env bind s).outcome.isResponse = true := by
  cases bind with
  | error err => simp [FirstInstallReport, Outcome.isResponse]
  | ok form =>
    cases hv : ValidStruct env form with
    | cons e rest => simp [FirstInstallReport, hv, Outcome.isResponse]
    | nil =>
      by_cases hu : (svc.InfoById s form.TargetUserId).Id = 0
      · simp [FirstInstallReport, hv, hu, Outcome.isResponse]
      · by_cases he : (svc.InfoByUserIdAndId s form.TargetUserId form.ClientId).RowId > 0
        · simp [FirstInstallReport, hv, hu, he, Outcome.isResponse]
        · rcases hp : svc.GetOrCreateDateCollection s form.TargetUserId
            (In env.Now loc).Format with ⟨s1, r⟩
          cases r with
          | error err =>
            simp [FirstInstallReport, hv, hu, he, hloc, hp, Outcome.isResponse]
          | ok c =>
            rcases hc : svc.Create s1 (firstInstallEntry form c.Id) with ⟨s2, oerr⟩
            rw [firstInstallEntry] at hc
            cases oerr with
            | none => simp [FirstInstallReport, hv, hu, he, hloc, hp, hc, Outcome.isResponse]
            | some err => simp [FirstInstallReport, hv, hu, he, hloc, hp, hc, Outcome.isResponse]

end RustdeskApi
